import Mathlib

set_option maxRecDepth 40000

/-!
Verification development for the script-writing backend
(Context Builder + Learning-Feedback Generation Loop).

Python text values are modelled as `List Char` (a Python `str` is a
sequence of code points).  Python floats are modelled as exact rationals.
Because the Mathlib arithmetic instances on `ℚ` are `irreducible`, the
embedding computes with small reducible wrappers (`qadd`, `qsub`, …) built
on `mkRat`; bridge lemmas below relate them to the ordinary `ℚ`
operations, so theorems can be stated with ordinary arithmetic while
witnesses evaluate by `decide`.
-/

/-- Reducible rational addition (same value as `a + b` on `ℚ`). -/
def qadd (a b : ℚ) : ℚ := mkRat (a.num * b.den + b.num * a.den) (a.den * b.den)

/-- Reducible rational subtraction (same value as `a - b`). -/
def qsub (a b : ℚ) : ℚ := mkRat (a.num * b.den - b.num * a.den) (a.den * b.den)

/-- Reducible rational multiplication (same value as `a * b`). -/
def qmul (a b : ℚ) : ℚ := mkRat (a.num * b.num) (a.den * b.den)

/-- Reducible division of a rational by a natural number (same value as `a / n`;
division by zero yields 0, as in `ℚ`). -/
def qdivNat (a : ℚ) (n : ℕ) : ℚ := mkRat a.num (a.den * n)

/-- Reducible embedding of a natural number into `ℚ`. -/
def qofNat (n : ℕ) : ℚ := mkRat (Int.ofNat n) 1

/-- Python `max` on two rationals. -/
def qmax (a b : ℚ) : ℚ := if a ≤ b then b else a

/-- Python `min` on two rationals. -/
def qmin (a b : ℚ) : ℚ := if a ≤ b then a else b

/-- Reducible sum of a list of rationals (Python `sum`). -/
def qsum (l : List ℚ) : ℚ := l.foldl qadd (mkRat 0 1)

/-- Python `round(x, 2)` on exact rationals: round to the nearest multiple
of 1/100, ties to even (Python uses banker's rounding). -/
def pyRound2 (x : ℚ) : ℚ :=
  let y := qmul x (qofNat 100)
  let n : ℤ := Rat.floor y
  let r : ℚ := qsub y (mkRat n 1)
  let k : ℤ :=
    if r < mkRat 1 2 then n
    else if mkRat 1 2 < r then n + 1
    else if n % 2 = 0 then n else n + 1
  mkRat k 100

/-- Does the pattern occur as a prefix of the text? (helper for substring search). -/
def startsWithChars : List Char → List Char → Bool
  | [], _ => true
  | _ :: _, [] => false
  | c :: cs, d :: ds => c = d && startsWithChars cs ds

/-- Python's `pattern in text` substring test on code-point sequences. -/
def containsSub (pat : List Char) : List Char → Bool
  | [] => pat.isEmpty
  | d :: ds => startsWithChars pat (d :: ds) || containsSub pat ds

/-- Characters stripped by Python `str.strip()` (ASCII whitespace suffices
for the texts handled here). -/
def isPySpace (c : Char) : Bool :=
  c = ' ' || c = '\t' || c = '\n' || c = '\r' || c = '\x0b' || c = '\x0c'

/-- Python `str.strip()`. -/
def pyStrip (l : List Char) : List Char :=
  ((l.dropWhile isPySpace).reverse.dropWhile isPySpace).reverse

/-- Python `line.split(sep, 1)` when `sep` occurs: the part before the first
occurrence and the part after it; `none` when `sep` does not occur. -/
def splitFirst (sep : Char) : List Char → Option (List Char × List Char)
  | [] => none
  | c :: cs =>
    if c = sep then some ([], cs)
    else (splitFirst sep cs).map (fun p => (c :: p.1, p.2))

/-- Python `l[-n:]`: the last `n` elements of a list. -/
def takeLast (n : ℕ) (l : List α) : List α := l.drop (l.length - n)

/-!
## Evaluator (`src/services/evaluator.py`)
-/

/-- The fixed cliché table `SceneEvaluator.common_cliches`: categories in
dict insertion order, patterns in list order.  (The source also attaches a
fixed explanation string derived from each pattern; no claim inspects it,
so it is not carried here.) -/
def common_cliches : List (String × List (List Char)) :=
  [ ("dialogue",
      [ ("그럴 리가 없어").toList
      , ("이게 무슨 일이야").toList
      , ("설마...").toList
      , ("아닐 거야").toList
      , ("믿을 수 없어").toList
      , ("이건 시작에 불과해").toList ])
  , ("plot",
      [ ("알고 보니 쌍둥이").toList
      , ("죽은 줄 알았던 사람이 살아있음").toList
      , ("모든 것이 꿈이었음").toList
      , ("마지막에 반전으로 악당이 가족").toList ])
  , ("transition",
      [ ("그때였다").toList
      , ("순간").toList
      , ("바로 그 순간").toList
      , ("그러던 어느 날").toList ]) ]

/-- The flattened `(category, pattern)` pairs of the cliché table. -/
def cliche_pairs : List (String × List Char) :=
  common_cliches.flatMap (fun tp => tp.2.map (fun p => (tp.1, p)))

/-- An issue produced by the rule-based analysis or the external judgment:
category and severity strings as they appear in the Python dicts. -/
structure RuleIssue where
  category : String
  severity : String
deriving DecidableEq

/-- Result of `SceneEvaluator._analyze_with_rules`: detected clichés as
`(category, matched pattern)` pairs in scan order, the issue list, and the
length of the content.  (The `dialogue_ratio` field of the source dict is
not consumed by any claim-relevant code and is omitted.) -/
structure RuleAnalysis where
  cliches : List (String × List Char)
  issues : List RuleIssue
  word_count : ℕ
deriving DecidableEq

/-- `SceneEvaluator._analyze_with_rules` (evaluator.py:95-127): one cliché
entry per `(category, pattern)` pair whose pattern occurs in the content; a
single severity-"warning" structure issue when the content is shorter than
100 characters. -/
def analyze_with_rules (content : List Char) : RuleAnalysis :=
  { cliches :=
      common_cliches.flatMap (fun tp =>
        (tp.2.filter (fun p => containsSub p content)).map (fun p => (tp.1, p)))
  , issues :=
      if content.length < 100 then [{ category := "structure", severity := "warning" }]
      else []
  , word_count := content.length }

/-- Result record of `SceneEvaluator.quick_evaluate`. -/
structure QuickEval where
  quick_score : ℚ
  cliche_count : ℕ
  issue_count : ℕ
  cliches : List (String × List Char)
  issues : List RuleIssue
  needs_full_evaluation : Bool
deriving DecidableEq

/-- `SceneEvaluator.quick_evaluate` (evaluator.py:315-342): rule-based
analysis only; score starts at 0.7, loses 0.1 per cliché and 0.05 per
issue (each subtraction guarded by a positivity test, as in the source),
clamped to [0.3, 1.0]. -/
def quick_evaluate (content : List Char) : QuickEval :=
  let analysis := analyze_with_rules content
  let cliche_count := analysis.cliches.length
  let issue_count := analysis.issues.length
  let base1 :=
    if 0 < cliche_count then qsub (mkRat 7 10) (qmul (qofNat cliche_count) (mkRat 1 10))
    else mkRat 7 10
  let base2 :=
    if 0 < issue_count then qsub base1 (qmul (qofNat issue_count) (mkRat 1 20))
    else base1
  { quick_score := qmax (mkRat 3 10) (qmin (mkRat 1 1) base2)
  , cliche_count := cliche_count
  , issue_count := issue_count
  , cliches := analysis.cliches
  , issues := analysis.issues
  , needs_full_evaluation := decide (0 < cliche_count) || decide (0 < issue_count) }

/-- A cliché entry coming back from the external judgment JSON: the
`type` field may be absent (the source defaults it to "dialogue"). -/
structure AiCliche where
  ctype : Option String
  text : List Char
deriving DecidableEq

/-- An issue entry coming back from the external judgment JSON: `category`
and `severity` may be absent (defaults "structure" / "warning"). -/
structure AiIssue where
  category : Option String
  severity : Option String
deriving DecidableEq

/-- Parsed external-judgment result consumed by `_merge_evaluations`:
missing score fields are `none` (the source uses `.get(..., 0.5)`). -/
structure AiEval where
  creativity_score : Option ℚ
  consistency_score : Option ℚ
  emotion_score : Option ℚ
  pacing_score : Option ℚ
  dialogue_score : Option ℚ
  cliches : List AiCliche
  issues : List AiIssue
  strengths : List (List Char)
  suggestions : List (List Char)
deriving DecidableEq

/-- The valid `ClicheType` enum values (schemas/evaluation.py). -/
def valid_cliche_types : List String :=
  ["dialogue", "plot", "character", "ending", "transition"]

/-- The valid `EvaluationCategory` enum values. -/
def valid_categories : List String :=
  ["creativity", "consistency", "emotion", "pacing", "dialogue", "structure", "overall"]

/-- The valid `SeverityLevel` enum values. -/
def valid_severities : List String := ["info", "warning", "error"]

/-- Merged evaluation produced by `_merge_evaluations` (the
`EvaluationCreate` fields the claims consume). -/
structure MergedEval where
  creativity_score : ℚ
  consistency_score : ℚ
  emotion_score : ℚ
  pacing_score : ℚ
  dialogue_score : ℚ
  overall_score : ℚ
  cliche_detected : Bool
  cliche_count : ℕ
  issues : List RuleIssue
deriving DecidableEq

/-- `SceneEvaluator._merge_evaluations` (evaluator.py:228-313): clichés and
issues are unioned (entries with an invalid enum value are dropped by the
source's try/except; absent fields take the source's defaults); the five
axis scores come from the external judgment with default 0.5; a creativity
penalty `min(#clichés * 0.1, 0.3)` is applied (floored at 0) when the
merged cliché list is non-empty; overall is the mean of the five scores. -/
def merge_evaluations (rb : RuleAnalysis) (ai : AiEval) : MergedEval :=
  let rb_cliche_count := rb.cliches.length
  let ai_cliches := ai.cliches.filter (fun c => (c.ctype.getD "dialogue") ∈ valid_cliche_types)
  let cliche_count := rb_cliche_count + ai_cliches.length
  let rb_issues := rb.issues.filter (fun i =>
    i.category ∈ valid_categories && i.severity ∈ valid_severities)
  let ai_issues := (ai.issues.filter (fun i =>
      (i.category.getD "structure") ∈ valid_categories &&
      (i.severity.getD "warning") ∈ valid_severities)).map (fun i =>
      { category := i.category.getD "structure", severity := i.severity.getD "warning" })
  let all_issues := rb_issues ++ ai_issues
  let c0 := ai.creativity_score.getD (mkRat 1 2)
  let co := ai.consistency_score.getD (mkRat 1 2)
  let em := ai.emotion_score.getD (mkRat 1 2)
  let pa := ai.pacing_score.getD (mkRat 1 2)
  let di := ai.dialogue_score.getD (mkRat 1 2)
  let creativity :=
    if 0 < cliche_count then
      qmax (mkRat 0 1) (qsub c0 (qmin (qmul (qofNat cliche_count) (mkRat 1 10)) (mkRat 3 10)))
    else c0
  { creativity_score := creativity
  , consistency_score := co
  , emotion_score := em
  , pacing_score := pa
  , dialogue_score := di
  , overall_score := qdivNat (qadd (qadd (qadd (qadd creativity co) em) pa) di) 5
  , cliche_detected := decide (0 < cliche_count)
  , cliche_count := cliche_count
  , issues := all_issues }

/-- `SceneEvaluator._get_default_evaluation` (evaluator.py:213-226): the
neutral result substituted when the external judgment fails. -/
def default_evaluation : AiEval :=
  { creativity_score := some (mkRat 1 2)
  , consistency_score := some (mkRat 1 2)
  , emotion_score := some (mkRat 1 2)
  , pacing_score := some (mkRat 1 2)
  , dialogue_score := some (mkRat 1 2)
  , cliches := []
  , issues := []
  , strengths := []
  , suggestions := [("AI 평가를 다시 시도해주세요.").toList] }

/-- The needs-revision derivation of `get_evaluation_summary`
(api/routers/evaluations.py:102-105): overall score below 0.6, or any
stored issue with severity "error". -/
def needs_revision (overall : ℚ) (issues : List RuleIssue) : Bool :=
  decide (overall < mkRat 3 5) || issues.any (fun i => i.severity = "error")

/-!
## Learning-Context Aggregator (`src/api/routers/generate.py`, `build_learning_context`)
-/

/-- A stored evaluation row as consumed by `build_learning_context`:
overall score, strengths, suggestions, cliché flag and the cliché dicts'
`description` fields (every stored cliché entry is a dict in the model,
matching the source's `isinstance` guard on data it wrote itself). -/
structure EvalRec where
  overall_score : ℚ
  strengths : List (List Char)
  suggestions : List (List Char)
  cliche_detected : Bool
  cliches : List (List Char)
deriving DecidableEq

/-- A scene row as consumed by `build_learning_context`: database id,
scene type, nullable content, and the result of `get_evaluation_by_scene`
for it (modelling the store lookup as a field). -/
structure LScene where
  id : ℕ
  scene_type : String
  content : Option (List Char)
  evaluation : Option EvalRec
deriving DecidableEq

/-- One entry of the aggregator's `best_scenes` list. -/
structure BestScene where
  scene_type : String
  score : ℚ
  content_preview : List Char
deriving DecidableEq

/-- The aggregator's output bundle (the dict built by
`build_learning_context`; `style_patterns` is always left empty by the
source and is omitted). -/
structure LearningContext where
  best_scenes : List BestScene
  strengths_to_keep : List (List Char)
  issues_to_avoid : List (List Char)
  character_examples : List (List Char × List (List Char))
  scene_count : ℕ
  avg_score : ℚ
deriving DecidableEq

/-- Is the scene skipped as the scene currently being generated?
(`if current_scene_id and scene.id == current_scene_id`, with Python
truthiness on the id). -/
def excluded_scene (current_scene_id : Option ℕ) (s : LScene) : Bool :=
  match current_scene_id with
  | some cid => decide (cid ≠ 0) && decide (s.id = cid)
  | none => false

/-- Does the scene qualify for mining?
(`if scene.content and len(scene.content) > 50`). -/
def qualifying_scene (s : LScene) : Bool :=
  match s.content with
  | some c => decide (50 < c.length)
  | none => false

/-- The qualifying scenes of a project, episodes in query order, scenes in
ascending scene-number order within each episode (the order
`get_scenes_by_episode` returns). -/
def all_qualifying_scenes (episodes : List (List LScene)) (current_scene_id : Option ℕ) :
    List LScene :=
  episodes.flatMap (fun eps =>
    eps.filter (fun s => !excluded_scene current_scene_id s && qualifying_scene s))

/-- The evaluated qualifying scenes, paired with their evaluations, in the
same traversal order. -/
def evaluated_pairs (episodes : List (List LScene)) (current_scene_id : Option ℕ) :
    List (LScene × EvalRec) :=
  (all_qualifying_scenes episodes current_scene_id).filterMap
    (fun s => s.evaluation.map (fun e => (s, e)))

/-- Insert one element into a descending-sorted list, after all entries
with an equal or larger score (so that the enclosing fold models Python's
stable `sorted(..., key=overall_score, reverse=True)`). -/
def insert_desc (x : LScene × EvalRec) : List (LScene × EvalRec) → List (LScene × EvalRec)
  | [] => [x]
  | y :: ys =>
    if x.2.overall_score ≤ y.2.overall_score then y :: insert_desc x ys
    else x :: y :: ys

/-- Python's stable `sorted(all_evaluations, key=overall_score, reverse=True)`. -/
def sort_desc (l : List (LScene × EvalRec)) : List (LScene × EvalRec) :=
  l.foldl (fun acc x => insert_desc x acc) []

/-- First-occurrence deduplication standing in for Python's
`list(set(...))` (whose order is unspecified; no claim depends on it). -/
def pydedup (l : List (List Char)) : List (List Char) := l.eraseDups

/-- The `best_scenes` entry built for one top scene: scene type, score and
the first 500 characters of the content. -/
def best_scene_entry (p : LScene × EvalRec) : BestScene :=
  { scene_type := p.1.scene_type
  , score := p.2.overall_score
  , content_preview := (p.1.content.getD []).take 500 }

/-- Add one dialogue example to the per-speaker map (`character_examples`
insertion: create the key if absent, then append while fewer than two
examples are stored). -/
def insert_example (m : List (List Char × List (List Char))) (name d : List Char) :
    List (List Char × List (List Char)) :=
  match m.lookup name with
  | none => m ++ [(name, [d])]
  | some _ => m.map (fun pr =>
      if pr.1 = name ∧ pr.2.length < 2 then (pr.1, pr.2 ++ [d]) else pr)

/-- Process one line of scene content for the `character_examples` scan:
split at the first colon, strip both parts, and keep the dialogue when the
speaker is non-empty and the dialogue is longer than 10 characters
(truncated to 100). -/
def scan_line (m : List (List Char × List (List Char))) (line : List Char) :
    List (List Char × List (List Char)) :=
  match splitFirst ':' line with
  | none => m
  | some (p0, p1) =>
    let char_name := pyStrip p0
    let dialogue := pyStrip p1
    if char_name ≠ [] ∧ dialogue ≠ [] ∧ 10 < dialogue.length then
      insert_example m char_name (dialogue.take 100)
    else m

/-- Scan one scene's content line by line (`if scene.content:` guard, then
`content.split('\n')`). -/
def scan_scene (m : List (List Char × List (List Char))) (s : LScene) :
    List (List Char × List (List Char)) :=
  match s.content with
  | none => m
  | some c => if c = [] then m else (c.splitOn '\n').foldl scan_line m

/-- `build_learning_context` (generate.py:54-156).  Input: the project's
episodes (in query order) with their scenes (ascending scene number), and
the optional id of the scene being generated.  Mirrors the source: early
return with zeroed fields when no qualifying scene has an evaluation;
otherwise mean score, stable top-3 by descending score, strengths of the
top 3, issues to avoid from every evaluation, and the dialogue-example
scan over `all_scenes[:5]`. -/
def build_learning_context (episodes : List (List LScene)) (current_scene_id : Option ℕ) :
    LearningContext :=
  let all_scenes := all_qualifying_scenes episodes current_scene_id
  let all_evaluations := evaluated_pairs episodes current_scene_id
  if all_evaluations.isEmpty then
    { best_scenes := [], strengths_to_keep := [], issues_to_avoid := []
    , character_examples := [], scene_count := all_scenes.length, avg_score := mkRat 0 1 }
  else
    let scores := all_evaluations.map (fun p => p.2.overall_score)
    let avg := if scores.isEmpty then mkRat 0 1 else qdivNat (qsum scores) scores.length
    let top_scenes := (sort_desc all_evaluations).take 3
    let strengths0 := top_scenes.flatMap (fun p => p.2.strengths)
    let issues0 := all_evaluations.flatMap (fun p =>
      p.2.suggestions.take 2 ++
      (if p.2.cliche_detected && !p.2.cliches.isEmpty then
        (p.2.cliches.take 2).map (fun d => ("클리셰 피하기: ").toList ++ d)
      else []))
    { best_scenes := top_scenes.map best_scene_entry
    , strengths_to_keep := (pydedup strengths0).take 5
    , issues_to_avoid := (pydedup issues0).take 5
    , character_examples := (all_scenes.take 5).foldl scan_scene []
    , scene_count := all_scenes.length
    , avg_score := avg }

/-- The `(speaker, dialogue)` candidate accepted from one line, if any
(same acceptance test as `scan_line`). -/
def line_candidate (line : List Char) : Option (List Char × List Char) :=
  match splitFirst ':' line with
  | none => none
  | some (p0, p1) =>
    let char_name := pyStrip p0
    let dialogue := pyStrip p1
    if char_name ≠ [] ∧ dialogue ≠ [] ∧ 10 < dialogue.length then
      some (char_name, dialogue.take 100)
    else none

/-- All accepted `(speaker, dialogue)` candidates of one scene, in line
order. -/
def scene_candidates (s : LScene) : List (List Char × List Char) :=
  match s.content with
  | none => []
  | some c =>
    if c = [] then [] else (c.splitOn '\n').filterMap line_candidate

/-- Collect candidates into the per-speaker map, at most `cap` examples
per speaker, keys in first-appearance order (closed-form view of the
example scan). -/
def collect_examples (cap : ℕ) (cands : List (List Char × List Char)) :
    List (List Char × List (List Char)) :=
  match cands with
  | [] => []
  | (n, d) :: rest => collectStep cap (collect_examples cap rest) n d
where
  /-- Prepend one candidate (which precedes `m`'s candidates) to a map. -/
  collectStep (cap : ℕ) (m : List (List Char × List (List Char))) (n : List Char)
      (d : List Char) : List (List Char × List (List Char)) :=
    match m.lookup n with
    | none => (n, [d]) :: m
    | some _ => m.map (fun pr => if pr.1 = n then (pr.1, (d :: pr.2).take cap) else pr)

/-- The spec's wording of the `character_examples` construction
(§4.2 step 7): scan the content of the most recent 5 qualifying scenes,
accepting "Speaker: dialogue" lines whose dialogue is at least 10
characters, keeping up to 2 examples (truncated to 100 characters) per
speaker.  Used only to compare the spec against the source. -/
def character_examples_spec (scenes : List LScene) :
    List (List Char × List (List Char)) :=
  (takeLast 5 scenes).foldl (fun m s => specScan m s) []
where
  specScanLine (m : List (List Char × List (List Char))) (line : List Char) :
      List (List Char × List (List Char)) :=
    match splitFirst ':' line with
    | none => m
    | some (p0, p1) =>
      let char_name := pyStrip p0
      let dialogue := pyStrip p1
      if char_name ≠ [] ∧ dialogue ≠ [] ∧ 10 ≤ dialogue.length then
        insert_example m char_name (dialogue.take 100)
      else m
  specScan (m : List (List Char × List (List Char))) (s : LScene) :
      List (List Char × List (List Char)) :=
    match s.content with
    | none => m
    | some c => if c = [] then m else (c.splitOn '\n').foldl specScanLine m

/-!
## Generation route fallbacks (`src/api/routers/generate.py`)
-/

/-- `generate_sample_script`'s character-name preparation: names of the
selected characters, defaults when none, and a filler when fewer than two. -/
def default_char_names (characters : List (List Char)) : List (List Char) :=
  let names := if characters.isEmpty then [("진행자A").toList, ("진행자B").toList]
               else characters
  if names.length < 2 then names ++ [("진행자").toList] else names

/-- The style note appended to every template
(`(스타일 참고: ...)` when learned strengths exist, empty otherwise). -/
def style_note (lc : Option LearningContext) : List Char :=
  match lc with
  | none => []
  | some l =>
    if l.strengths_to_keep = [] then []
    else ("(스타일 참고: ").toList ++
         List.intercalate ((", ").toList) (l.strengths_to_keep.take 2) ++ (")").toList

/-- The fixed "opening" template. -/
def script_opening (n0 n1 goal note : List Char) : List Char :=
  n0 ++ (": (카메라를 보며 에너지 넘치게) 안녕하세요! 오늘도 찾아왔습니다.\n\n").toList ++
  n1 ++ (": 네, 오늘은 정말 흥미로운 주제가 있어요.\n\n").toList ++
  n0 ++ (": 맞아요. ").toList ++ goal ++ ("\n\n").toList ++
  n1 ++ (": (시청자를 향해) 오늘 방송 끝나면 이 주제, 완벽하게 이해하실 수 있을 거예요.\n\n").toList ++
  n0 ++ (": 자, 그럼 바로 시작해볼까요?\n\n").toList ++
  n1 ++ (": 네, 들어갑니다!\n\n").toList ++ note

/-- The fixed "dialogue" template (also the fallback for unknown types). -/
def script_dialogue (n0 n1 goal note : List Char) : List Char :=
  n0 ++ (": 이 부분이 핵심인 것 같아요.\n\n").toList ++
  n1 ++ (": 맞아요. ").toList ++ goal ++ ("\n\n").toList ++
  n0 ++ (": 그런데 여기서 중요한 포인트가 있어요.\n\n").toList ++
  n1 ++ (": (끄덕이며) 그 부분이 정말 중요하죠.\n\n").toList ++
  n0 ++ (": 좀 더 자세히 풀어볼게요.\n\n").toList ++
  n1 ++ (": (자료를 보며) 여기 보시면...\n\n").toList ++
  n0 ++ (": 아, 이게 바로 그거네요!\n\n").toList ++ note

/-- The fixed "talk" template. -/
def script_talk (n0 n1 goal note : List Char) : List Char :=
  n0 ++ (": 자, 본격적으로 들어가 보겠습니다.\n\n").toList ++
  n1 ++ (": ").toList ++ goal ++ ("\n\n").toList ++
  n0 ++ (": 이게 왜 중요하냐면요...\n\n").toList ++
  n1 ++ (": 맥락을 보면 이해가 됩니다.\n\n").toList ++
  n0 ++ (": (자료를 보며) 여기 보시면 명확해요.\n\n").toList ++
  n1 ++ (": 아, 그렇군요. 이게 핵심 포인트네요.\n\n").toList ++
  n0 ++ (": 시청자분들도 이제 이해되셨죠?\n\n").toList ++ note

/-- The fixed "highlight" template. -/
def script_highlight (n0 n1 goal note : List Char) : List Char :=
  n0 ++ (": (강조하며) 여기가 오늘의 핵심입니다!\n\n").toList ++
  n1 ++ (": ").toList ++ goal ++ ("\n\n").toList ++
  n0 ++ (": 이건 꼭 기억하셔야 해요.\n\n").toList ++
  n1 ++ (": (끼어들며) 정말 중요한 부분이에요.\n\n").toList ++
  n0 ++ (": 다시 한번 정리하면...\n\n").toList ++
  n1 ++ (": 바로 이거예요!\n\n").toList ++
  n0 ++ (": 시청자 여러분, 이거 놓치시면 안 됩니다!\n\n").toList ++ note

/-- The fixed "closing" template. -/
def script_closing (n0 n1 goal note : List Char) : List Char :=
  n0 ++ (": 자, 오늘 내용을 정리해 보면요.\n\n").toList ++
  n1 ++ (": 첫째, ").toList ++ goal ++ ("\n\n").toList ++
  n0 ++ (": 이게 오늘의 핵심이었습니다.\n\n").toList ++
  n1 ++ (": 다음 주에는 더 재미있는 주제로 찾아뵙겠습니다.\n\n").toList ++
  n0 ++ (": 시청해 주셔서 감사합니다!\n\n(함께) 다음에 또 만나요!\n\n").toList ++ note

/-- `generate_sample_script` (generate.py:362-453): deterministic template
generator used when no OpenAI client is configured; `scripts.get(scene_type,
scripts["dialogue"])`. -/
def generate_sample_script (characters : List (List Char)) (goal : List Char)
    (scene_type : String) (lc : Option LearningContext) : List Char :=
  let names := default_char_names characters
  let n0 := (names.get? 0).getD []
  let n1 := (names.get? 1).getD []
  let note := style_note lc
  if scene_type = "opening" then script_opening n0 n1 goal note
  else if scene_type = "dialogue" then script_dialogue n0 n1 goal note
  else if scene_type = "talk" then script_talk n0 n1 goal note
  else if scene_type = "highlight" then script_highlight n0 n1 goal note
  else if scene_type = "closing" then script_closing n0 n1 goal note
  else script_dialogue n0 n1 goal note

/-- The evaluation dict produced by `generate_sample_evaluation`. -/
structure SampleEval where
  creativity_score : ℚ
  consistency_score : ℚ
  emotion_score : ℚ
  pacing_score : ℚ
  dialogue_score : ℚ
  overall_score : ℚ
  cliche_detected : Bool
  strengths : List (List Char)
  suggestions : List (List Char)
  summary : List Char
deriving DecidableEq

/-- `generate_sample_evaluation` (generate.py:557-584): heuristic sample
evaluation used when no client is configured.  The five `random.random()`
draws are passed explicitly, in call order: `r0` for the base, `r1`–`r3`
for the creativity/emotion/pacing jitter, `r4` for the cliché flag. -/
def generate_sample_evaluation (content : List Char) (r0 r1 r2 r3 r4 : ℚ) : SampleEval :=
  let word_count := content.length
  let dialogue_count := content.count ':'
  let base := qadd (mkRat 3 4) (qmul r0 (mkRat 3 20))
  let dialogue_bonus := qmin (mkRat 1 10) (qmul (qofNat dialogue_count) (mkRat 1 50))
  { creativity_score := pyRound2 (qadd base (qmul r1 (mkRat 1 10)))
  , consistency_score := pyRound2 (qadd base (mkRat 1 20))
  , emotion_score := pyRound2 (qadd base (qmul r2 (mkRat 2 25)))
  , pacing_score := pyRound2 (qadd base (qmul r3 (mkRat 1 20)))
  , dialogue_score := pyRound2 (qadd base dialogue_bonus)
  , overall_score := pyRound2 (qadd base (mkRat 3 100))
  , cliche_detected := decide (r4 < mkRat 1 5)
  , strengths := [("자연스러운 대화 흐름").toList, ("캐릭터 말투 유지").toList]
  , suggestions := [("감정 표현을 더 다양하게").toList]
  , summary := ("총 ").toList ++ Nat.toDigits 10 word_count ++ ("자, ").toList ++
      Nat.toDigits 10 dialogue_count ++ ("개 대사. 전반적으로 양호한 대본입니다.").toList }

/-!
## Scene rows and CRUD (`src/models/database/crud.py`, scene write of the
generation route)
-/

/-- The fields of a stored Scene relevant to the content/word-count and
generation-route claims.  `content` is nullable in the database schema. -/
structure SceneRow where
  id : ℕ
  scene_number : ℕ
  content : Option (List Char)
  word_count : ℕ
  ai_generated : Bool
  goal : Option (List Char)
  title : Option (List Char)
deriving DecidableEq

/-- `create_scene` (crud.py:168-194), restricted to the fields above:
`SceneCreate.content` is a non-nullable string defaulting to "", and
`word_count` is `len(content) if content else 0`.  (`SceneUpdate` and
`SceneCreate` expose no `word_count` field, so it is never settable
directly.) -/
def create_scene_row (id scene_number : ℕ) (content : List Char)
    (goal title : Option (List Char)) : SceneRow :=
  { id := id
  , scene_number := scene_number
  , content := some content
  , word_count := if content = [] then 0 else content.length
  , ai_generated := false
  , goal := goal
  , title := title }

/-- `update_scene` (crud.py:214-234), content aspect.  The update's content
field is `none` when unset, `some none` when explicitly set to null, and
`some (some c)` when set to a string; the source recomputes `word_count`
only in the last case (`if scene.content is not None`).  The other
updatable fields do not interact with content or word count. -/
def update_scene_row (s : SceneRow) (content_update : Option (Option (List Char))) :
    SceneRow :=
  let s1 := match content_update with
    | none => s
    | some v => { s with content := v }
  match content_update with
  | some (some c) => { s1 with word_count := c.length }
  | _ => s1

/-- The scene write performed by `generate_scene_content`
(generate.py:216-222) after producing `content`: sets content, recomputed
word count, the AI flag, the goal, and a default title when absent. -/
def generate_route_update (s : SceneRow) (content goal : List Char) : SceneRow :=
  { s with
    content := some content
  , word_count := content.length
  , ai_generated := true
  , goal := some goal
  , title :=
      if s.title = none ∨ s.title = some [] then
        some (if goal = [] then ("장면 ").toList ++ Nat.toDigits 10 s.scene_number
              else ((goal.splitOn '\n').headD []).take 50)
      else s.title }

/-- Does the scene's stored word count match its content length
(0 for absent content)?  The invariant of claim C7. -/
def word_count_invariant (s : SceneRow) : Prop :=
  s.word_count = (match s.content with | some c => c.length | none => 0)

/-!
## Scene display-id generation (`generate_scene_id`, crud.py:145-165)
-/

/-- Python `f"{n:02d}"`. -/
def pad2 (n : ℕ) : List Char :=
  if n < 10 then '0' :: Nat.toDigits 10 n else Nat.toDigits 10 n

/-- The base display id `f"S{season:02d}E{episode_number:02d}_SC{scene_number:02d}"`
with season fixed at 1. -/
def scene_display_id (episode_number scene_number : ℕ) : List Char :=
  ("S").toList ++ pad2 1 ++ ("E").toList ++ pad2 episode_number ++
  ("_SC").toList ++ pad2 scene_number

/-- `f"{base_id}_{suffix}"`. -/
def with_suffix (base : List Char) (k : ℕ) : List Char :=
  base ++ '_' :: Nat.toDigits 10 k

/-- The collision loop of `generate_scene_id`: try numeric suffixes
starting at `s`; once the suffix counter passes 100, fall back to a
timestamp suffix.  `fuel` counts the remaining numeric attempts (100 at
the top-level call, matching `if suffix > 100` after the increment). -/
def try_suffixes (existing : List (List Char)) (base : List Char) (timestamp : ℕ) :
    ℕ → ℕ → List Char
  | 0, _ => base ++ '_' :: Nat.toDigits 10 timestamp
  | fuel + 1, s =>
    let cand := with_suffix base s
    if cand ∈ existing then try_suffixes existing base timestamp fuel (s + 1)
    else cand

/-- `generate_scene_id` (crud.py:145-165): the stored scene ids are the
`existing` list; `timestamp` is the value of `int(time.time())` at fallback
time. -/
def generate_scene_id (existing : List (List Char)) (episode_number scene_number : ℕ)
    (timestamp : ℕ) : List Char :=
  let base := scene_display_id episode_number scene_number
  if base ∈ existing then try_suffixes existing base timestamp 100 1
  else base

/-!
## Evaluation replacement (`update_evaluation`, crud.py:347-354, and
`auto_evaluate_scene`, generate.py:456-497)
-/

/-- A stored Evaluation row (the fields the replacement claims consume;
the remaining JSON payload fields ride along unchanged and are not
modelled). -/
structure EvalRow where
  scene_id : ℕ
  overall_score : ℚ
  creativity_score : ℚ
  summary : List Char
deriving DecidableEq

/-- `get_evaluation_by_scene` (crud.py:342-344): `.first()` on the query,
modelled as the first matching row in store order. -/
def get_evaluation_by_scene (db : List EvalRow) (sid : ℕ) : Option EvalRow :=
  (db.filter (fun e => e.scene_id = sid)).head?

/-- Delete the first row with the given scene id (the row object returned
by `get_evaluation_by_scene`). -/
def erase_first_eval (sid : ℕ) : List EvalRow → List EvalRow
  | [] => []
  | e :: es => if e.scene_id = sid then es else e :: erase_first_eval sid es

/-- `create_evaluation` (crud.py:314-334): inserts the new row. -/
def create_evaluation (db : List EvalRow) (e : EvalRow) : List EvalRow := db ++ [e]

/-- `update_evaluation` (crud.py:347-354): delete the existing evaluation
of the scene, if any, then insert the new one. -/
def update_evaluation (db : List EvalRow) (sid : ℕ) (e : EvalRow) : List EvalRow :=
  match get_evaluation_by_scene db sid with
  | some _ => create_evaluation (erase_first_eval sid db) e
  | none => create_evaluation db e

/-- The Evaluation row stored by `auto_evaluate_scene` for a scene from a
sample evaluation. -/
def eval_row_of (sid : ℕ) (ev : SampleEval) : EvalRow :=
  { scene_id := sid
  , overall_score := ev.overall_score
  , creativity_score := ev.creativity_score
  , summary := ev.summary }

/-- `auto_evaluate_scene` (generate.py:456-497), storage aspect: delete any
existing evaluation of the scene, then insert the new one. -/
def auto_evaluate_replace (db : List EvalRow) (sid : ℕ) (ev : SampleEval) : List EvalRow :=
  let db1 := match get_evaluation_by_scene db sid with
    | some _ => erase_first_eval sid db
    | none => db
  db1 ++ [eval_row_of sid ev]

/-!
## Context Builder (`src/services/context_builder.py`)
-/

/-- A scene row as consumed by `_build_previous_scenes_context`. -/
structure PrevScene where
  scene_number : ℕ
  scene_type : String
  content : Option (List Char)
deriving DecidableEq

/-- One summary entry of the previous-scenes context (the fields the claim
consumes). -/
structure PrevEntry where
  scene_number : ℕ
  scene_type : String
  summary : List Char
deriving DecidableEq

/-- `ContextBuilder._summarize_content` (context_builder.py:266-278): empty
for absent/empty content; otherwise the first 3 lines joined by spaces,
hard-truncated to 150 characters plus an ellipsis marker when exceeded. -/
def summarize_content (content : Option (List Char)) : List Char :=
  match content with
  | none => []
  | some c =>
    if c = [] then []
    else
      let summary := List.intercalate ([' ']) ((c.splitOn '\n').take 3)
      if 150 < summary.length then summary.take 150 ++ ("...").toList else summary

/-- The restriction step of `_build_previous_scenes_context`
(`if current_scene_number:` — Python truthiness, so 0 behaves like None). -/
def previous_scenes_restrict (scenes : List PrevScene) (current : Option ℕ) :
    List PrevScene :=
  match current with
  | some n => if n ≠ 0 then scenes.filter (fun s => decide (s.scene_number < n)) else scenes
  | none => scenes

/-- `ContextBuilder._build_previous_scenes_context`
(context_builder.py:245-264): restrict to scenes before the current one,
keep the last 5 (`scenes[-5:]`), and summarize each.  The input list is the
episode's scenes in the ascending scene-number order returned by
`get_scenes_by_episode`. -/
def build_previous_scenes_context (scenes : List PrevScene) (current : Option ℕ) :
    List PrevEntry :=
  (takeLast 5 (previous_scenes_restrict scenes current)).map (fun s =>
    { scene_number := s.scene_number
    , scene_type := s.scene_type
    , summary := summarize_content s.content })

/-- The dialogue candidates recorded for one speaker name, in scan order. -/
def cands_for (name : List Char) (cands : List (List Char × List Char)) :
    List (List Char) :=
  (cands.filter (fun pr => pr.1 = name)).map (fun pr => pr.2)

/-- The spec's restriction of an episode's scenes to those strictly before
the given current scene number (no Python-truthiness quirk). -/
def spec_restrict (scenes : List PrevScene) (current : Option ℕ) : List PrevScene :=
  match current with
  | some n => scenes.filter (fun s => decide (s.scene_number < n))
  | none => scenes

/-!
## Concrete test fixtures used by witnesses and counterexamples
-/

/-- Evaluated-scene fixture: uniform filler content of 60 characters. -/
def lsc (i : ℕ) (ty : String) (c : Char) (ev : Option EvalRec) : LScene :=
  { id := i, scene_type := ty, content := some (List.replicate 60 c), evaluation := ev }

/-- Evaluation fixture with a given overall score. -/
def evr (q : ℚ) : EvalRec :=
  { overall_score := q, strengths := [], suggestions := [], cliche_detected := false
  , cliches := [] }

/-- A project with one episode and four evaluated scenes scoring
0.6, 0.9, 0.4, 0.85 (spec end-to-end scenario 3). -/
def eps4 : List (List LScene) :=
  [[ lsc 1 "opening" '가' (some (evr (mkRat 3 5)))
   , lsc 2 "talk" '나' (some (evr (mkRat 9 10)))
   , lsc 3 "closing" '다' (some (evr (mkRat 2 5)))
   , lsc 4 "highlight" '라' (some (evr (mkRat 17 20))) ]]

/-- A speaker line whose dialogue part is exactly 10 characters long. -/
def c5_line10 : List Char := ("B: 1234567890").toList

/-- A project with six qualifying scenes; only the first is evaluated.
Scenes 1 and 3 carry a 10-character dialogue line, scene 6 carries a
longer one. -/
def eps6 : List (List LScene) :=
  [[ { id := 1, scene_type := "dialogue"
     , content := some (c5_line10 ++ '\n' :: List.replicate 45 '가')
     , evaluation := some (evr (mkRat 1 2)) }
   , { id := 2, scene_type := "dialogue", content := some (List.replicate 55 '나')
     , evaluation := none }
   , { id := 3, scene_type := "dialogue"
     , content := some (c5_line10 ++ '\n' :: List.replicate 45 '다'), evaluation := none }
   , { id := 4, scene_type := "dialogue", content := some (List.replicate 55 '라')
     , evaluation := none }
   , { id := 5, scene_type := "dialogue", content := some (List.replicate 55 '마')
     , evaluation := none }
   , { id := 6, scene_type := "dialogue"
     , content := some ((("김철수: 안녕하세요 반갑습니다 여러분").toList) ++ '\n' :: List.replicate 40 '바')
     , evaluation := none } ]]

/-- A project with a single qualifying, evaluated scene whose content
carries one speaker line with a dialogue longer than 10 characters. -/
def eps7 : List (List LScene) :=
  [[ { id := 1, scene_type := "dialogue"
     , content := some ((("김철수: 안녕하세요 반갑습니다 여러분").toList) ++ '\n' :: List.replicate 40 '사')
     , evaluation := some (evr (mkRat 4 5)) } ]]

/-- Content with exactly one cliché pattern and no length issue. -/
def c3_content : List Char := ("그때였다").toList ++ List.replicate 100 '가'

/-- External judgment returning creativity 0.0 and 0.5 elsewhere. -/
def c3_ai : AiEval :=
  { creativity_score := some (mkRat 0 1)
  , consistency_score := some (mkRat 1 2)
  , emotion_score := some (mkRat 1 2)
  , pacing_score := some (mkRat 1 2)
  , dialogue_score := some (mkRat 1 2)
  , cliches := [], issues := [], strengths := [], suggestions := [] }

/-- Content with one cliché pattern (and a length warning). -/
def c3w_content : List Char := ("그때였다").toList

/-- The template content generated for the default request with no
characters and no learning context. -/
def c4_content : List Char :=
  generate_sample_script [] (("오늘의 주제").toList) "dialogue" none

/-- The base display id for episode 1, scene 1. -/
def c6_base : List Char := scene_display_id 1 1

/-- A store holding the base id, all 100 numeric-suffix variants, and the
timestamp-suffix variant for timestamp 1700000000. -/
def c6_existing : List (List Char) :=
  c6_base :: (List.range 100).map (fun k => with_suffix c6_base (k + 1)) ++
    [c6_base ++ '_' :: Nat.toDigits 10 1700000000]

/-- A freshly created scene with 8 characters of content. -/
def c7_scene : SceneRow := create_scene_row 1 1 (List.replicate 8 '가') none none

/-- Evaluation-row fixture. -/
def c8_row (sid : ℕ) (q : ℚ) : EvalRow :=
  { scene_id := sid, overall_score := q, creativity_score := q, summary := [] }

/-- A store with one evaluation for scene 7 and one for scene 3. -/
def c8_db : List EvalRow := [c8_row 7 (mkRat 1 2), c8_row 3 (mkRat 3 5)]

/-- Previous-scenes fixture: three scenes of one episode, ascending. -/
def c9_scenes : List PrevScene :=
  [ { scene_number := 1, scene_type := "opening", content := some (("첫 장면").toList) }
  , { scene_number := 2, scene_type := "talk"
    , content := some (("둘째 장면\n둘째 내용\n셋째 줄\n넷째 줄").toList) }
  , { scene_number := 3, scene_type := "closing", content := none } ]

/-!
## Bridge lemmas: the reducible rational wrappers agree with the ordinary
`ℚ` operations.
-/

theorem ratFloor_eq (q : ℚ) : Rat.floor q = ⌊q⌋ := by
  rw [Rat.floor_def, Rat.floor_def']

theorem qadd_eq (a b : ℚ) : qadd a b = a + b := by
  rw [qadd, Rat.mkRat_eq_div]
  have ha : ((a.den : ℚ)) ≠ 0 := by exact_mod_cast a.den_ne_zero
  have hb : ((b.den : ℚ)) ≠ 0 := by exact_mod_cast b.den_ne_zero
  conv_rhs => rw [← Rat.num_div_den a, ← Rat.num_div_den b, div_add_div _ _ ha hb]
  push_cast
  ring_nf

theorem qsub_eq (a b : ℚ) : qsub a b = a - b := by
  rw [qsub, Rat.mkRat_eq_div]
  have ha : ((a.den : ℚ)) ≠ 0 := by exact_mod_cast a.den_ne_zero
  have hb : ((b.den : ℚ)) ≠ 0 := by exact_mod_cast b.den_ne_zero
  conv_rhs => rw [← Rat.num_div_den a, ← Rat.num_div_den b, div_sub_div _ _ ha hb]
  push_cast
  ring_nf

theorem qmul_eq (a b : ℚ) : qmul a b = a * b := by
  rw [qmul, Rat.mkRat_eq_div]
  conv_rhs => rw [← Rat.num_div_den a, ← Rat.num_div_den b, div_mul_div_comm]
  push_cast
  ring_nf

theorem qdivNat_eq (a : ℚ) (n : ℕ) : qdivNat a n = a / n := by
  rw [qdivNat, Rat.mkRat_eq_div]
  conv_rhs => rw [← Rat.num_div_den a, div_div]
  push_cast
  ring_nf

theorem qofNat_eq (n : ℕ) : qofNat n = (n : ℚ) := by
  rw [qofNat, Rat.mkRat_eq_div]
  simp

theorem qmax_eq (a b : ℚ) : qmax a b = max a b := by
  rw [qmax, max_def]

theorem qmin_eq (a b : ℚ) : qmin a b = min a b := by
  rw [qmin, min_def]

theorem qzero_eq : mkRat 0 1 = (0 : ℚ) := by
  rw [Rat.mkRat_eq_div]
  norm_num

theorem qsum_foldl (l : List ℚ) (init : ℚ) : l.foldl qadd init = init + l.sum := by
  induction l generalizing init with
  | nil => simp
  | cons x xs ih =>
    simp only [List.foldl_cons, List.sum_cons, ih, qadd_eq]
    ring

theorem qsum_eq (l : List ℚ) : qsum l = l.sum := by
  rw [qsum, qsum_foldl, qzero_eq, zero_add]

/-!
## Evaluator lemmas and claim C2
-/

theorem table_filter_comm (f : List Char → Bool) (table : List (String × List (List Char))) :
    table.flatMap (fun tp => (tp.2.filter f).map (fun p => (tp.1, p))) =
    (table.flatMap (fun tp => tp.2.map (fun p => (tp.1, p)))).filter (fun pr => f pr.2) := by
  induction table with
  | nil => simp
  | cons tp rest ih =>
    simp only [List.flatMap_cons, List.filter_append, ih]
    congr 1
    rw [List.filter_map]
    rfl

theorem analyze_with_rules_cliches (content : List Char) :
    (analyze_with_rules content).cliches =
      cliche_pairs.filter (fun pr => containsSub pr.2 content) := by
  simp only [analyze_with_rules]
  rw [table_filter_comm]
  rfl

theorem analyze_with_rules_issues (content : List Char) :
    (analyze_with_rules content).issues =
      if content.length < 100 then [{ category := "structure", severity := "warning" }]
      else [] := by
  simp only [analyze_with_rules]

/-- Claim C2: `quick_evaluate` is a pure function of the content whose
`cliche_count` is the number of `(category, phrase)` table pairs occurring
in the content, whose `issue_count` is 1 exactly when the content is
shorter than 100 characters, whose score is
`clamp(0.7 - 0.1·cliche_count - 0.05·issue_count, 0.3, 1.0)`, and whose
`needs_full_evaluation` flag is set exactly when a cliché or an issue was
found.  (Determinism is immediate: the quick path is modelled as a pure
function because the source path `quick_evaluate` → `_analyze_with_rules`
uses no randomness and no external call.) -/
theorem quick_evaluate_matches_spec (content : List Char) :
    (quick_evaluate content).cliche_count =
      (cliche_pairs.filter (fun pr => containsSub pr.2 content)).length ∧
    (quick_evaluate content).issue_count = (if content.length < 100 then 1 else 0) ∧
    (quick_evaluate content).quick_score =
      max (3/10 : ℚ) (min 1 ((7:ℚ)/10
        - ((cliche_pairs.filter (fun pr => containsSub pr.2 content)).length : ℚ) * (1/10)
        - (if content.length < 100 then (1:ℚ) else 0) * (1/20))) ∧
    ((quick_evaluate content).needs_full_evaluation = true ↔
      0 < (quick_evaluate content).cliche_count ∨ 0 < (quick_evaluate content).issue_count) := by
  have hc := analyze_with_rules_cliches content
  have hi := analyze_with_rules_issues content
  have hil : (analyze_with_rules content).issues.length =
      (if content.length < 100 then 1 else 0) := by
    rw [hi]
    by_cases h : content.length < 100 <;> simp [h]
  refine ⟨?_, ?_, ?_, ?_⟩
  · simp only [quick_evaluate]
    rw [hc]
  · simp only [quick_evaluate]
    exact hil
  · simp only [quick_evaluate]
    rw [hc, hil]
    rw [qmax_eq, qmin_eq]
    have e1 : mkRat 3 10 = (3/10 : ℚ) := by rw [Rat.mkRat_eq_div]; norm_num
    have e2 : mkRat 1 1 = (1 : ℚ) := by rw [Rat.mkRat_eq_div]; norm_num
    have e7 : mkRat 7 10 = (7/10 : ℚ) := by rw [Rat.mkRat_eq_div]; norm_num
    have e10 : mkRat 1 10 = (1/10 : ℚ) := by rw [Rat.mkRat_eq_div]; norm_num
    have e20 : mkRat 1 20 = (1/20 : ℚ) := by rw [Rat.mkRat_eq_div]; norm_num
    by_cases h1 : 0 < (cliche_pairs.filter (fun pr => containsSub pr.2 content)).length <;>
      by_cases h2 : content.length < 100
    · simp only [h1, h2, if_true, qsub_eq, qmul_eq, qofNat_eq, e1, e2, e7, e10, e20]
      push_cast
      ring_nf
    · simp only [h1, h2, if_true, if_false, qsub_eq, qmul_eq, qofNat_eq, e1, e2, e7, e10, e20]
      push_cast
      ring_nf
    · simp only [h1, h2, if_true, if_false, qsub_eq, qmul_eq, qofNat_eq, e1, e2, e7, e10, e20]
      rw [Nat.eq_zero_of_not_pos h1]
      push_cast
      ring_nf
    · simp only [h1, h2, if_true, if_false, qsub_eq, qmul_eq, qofNat_eq, e1, e2, e7, e10, e20]
      rw [Nat.eq_zero_of_not_pos h1]
      push_cast
      ring_nf
  · simp only [quick_evaluate]
    constructor
    · intro h
      rcases Bool.or_eq_true_iff.mp h with h' | h' <;> [left; right] <;> exact of_decide_eq_true h'
    · intro h
      rcases h with h' | h' <;> simp [h']

/-!
## Claim C3: the merge step
-/

/-- Claim C3 (amended): in the merged evaluation the five axis scores come
solely from the external judgment (default 0.5 when absent); when the
merged cliché list is non-empty the creativity score is reduced by
`min(cliche_count * 0.1, 0.3)` and floored at 0; the overall score is the
unweighted mean of the five resulting axis scores. -/
theorem merge_evaluations_axes_spec (rb : RuleAnalysis) (ai : AiEval) :
    (merge_evaluations rb ai).consistency_score = ai.consistency_score.getD (1/2) ∧
    (merge_evaluations rb ai).emotion_score = ai.emotion_score.getD (1/2) ∧
    (merge_evaluations rb ai).pacing_score = ai.pacing_score.getD (1/2) ∧
    (merge_evaluations rb ai).dialogue_score = ai.dialogue_score.getD (1/2) ∧
    ((merge_evaluations rb ai).cliche_count = 0 →
      (merge_evaluations rb ai).creativity_score = ai.creativity_score.getD (1/2)) ∧
    (0 < (merge_evaluations rb ai).cliche_count →
      (merge_evaluations rb ai).creativity_score =
        max 0 (ai.creativity_score.getD (1/2)
          - min (((merge_evaluations rb ai).cliche_count : ℚ) * (1/10)) (3/10))) ∧
    (merge_evaluations rb ai).overall_score =
      ((merge_evaluations rb ai).creativity_score + (merge_evaluations rb ai).consistency_score
        + (merge_evaluations rb ai).emotion_score + (merge_evaluations rb ai).pacing_score
        + (merge_evaluations rb ai).dialogue_score) / 5 := by
  have e_half : mkRat 1 2 = (1/2 : ℚ) := by rw [Rat.mkRat_eq_div]; norm_num
  have e0 : mkRat 0 1 = (0 : ℚ) := qzero_eq
  have e10 : mkRat 1 10 = (1/10 : ℚ) := by rw [Rat.mkRat_eq_div]; norm_num
  have e310 : mkRat 3 10 = (3/10 : ℚ) := by rw [Rat.mkRat_eq_div]; norm_num
  simp only [merge_evaluations, e_half, e0, e10, e310, qmax_eq, qmin_eq, qsub_eq, qmul_eq,
    qofNat_eq, qadd_eq, qdivNat_eq]
  refine ⟨?_, ?_, ?_, ?_, ?_, ?_, ?_⟩ <;> try trivial
  · intro h
    rw [h]
    simp
  · intro h
    rw [if_pos h]

/-- Claim C3 counterexample: with one detected cliché and an external
creativity score of 0.0, the merged creativity score is 0, not the
claimed `0.0 - min(1 * 0.1, 0.3) = -0.1` — the source floors the
penalized score at 0 (`max(0, ...)`), which the claim omits. -/
theorem merge_evaluations_penalty_floor_cex :
    (merge_evaluations (analyze_with_rules c3_content) c3_ai).creativity_score ≠
      c3_ai.creativity_score.getD (1/2)
        - min (((merge_evaluations (analyze_with_rules c3_content) c3_ai).cliche_count : ℚ)
            * (1/10)) (3/10) := by
  have h1 : (merge_evaluations (analyze_with_rules c3_content) c3_ai).creativity_score =
      mkRat 0 1 := by decide
  have h2 : (merge_evaluations (analyze_with_rules c3_content) c3_ai).cliche_count = 1 := by
    decide
  have h3 : c3_ai.creativity_score = some (mkRat 0 1) := rfl
  rw [h1, h2, h3, qzero_eq]
  simp only [Option.getD_some]
  norm_num

/-- Witness for the amended C3 theorem: content with one cliché merged
with the neutral default judgment yields creativity
`max 0 (0.5 - 0.1) = 0.4` and overall `(0.4 + 4·0.5)/5 = 0.48`. -/
theorem merge_evaluations_axes_spec_witness :
    (merge_evaluations (analyze_with_rules c3w_content) default_evaluation).creativity_score
      = 2/5 ∧
    (merge_evaluations (analyze_with_rules c3w_content) default_evaluation).overall_score
      = 12/25 := by
  obtain ⟨h1, h2, h3, h4, h5, h6, h7⟩ :=
    merge_evaluations_axes_spec (analyze_with_rules c3w_content) default_evaluation
  have hc : 0 < (merge_evaluations (analyze_with_rules c3w_content)
      default_evaluation).cliche_count := by decide
  have hcv : (merge_evaluations (analyze_with_rules c3w_content)
      default_evaluation).cliche_count = 1 := by decide
  have e_half : mkRat 1 2 = (1/2 : ℚ) := by rw [Rat.mkRat_eq_div]; norm_num
  have hcr : (merge_evaluations (analyze_with_rules c3w_content)
      default_evaluation).creativity_score = 2/5 := by
    rw [h6 hc, hcv]
    simp only [default_evaluation, Option.getD_some, e_half]
    rw [max_eq_right (by norm_num)]
    norm_num
  refine ⟨hcr, ?_⟩
  rw [h7, hcr, h1, h2, h3, h4]
  simp only [default_evaluation, Option.getD_some, e_half]
  norm_num

/-!
## Claim C10: the static path only emits warnings
-/

/-- Claim C10: the rule-based static analysis emits issues only with
severity "warning" (its single issue kind is the too-short warning), so a
full evaluation whose external judgment failed (neutral default) carries
no severity-"error" issue, and the downstream needs-revision derivation
reduces to the score threshold `overall_score < 0.6` alone. -/
theorem static_path_never_error (content : List Char) (q : ℚ) :
    ((analyze_with_rules content).issues.all (fun i => i.severity = "warning")) = true ∧
    ((merge_evaluations (analyze_with_rules content) default_evaluation).issues.any
      (fun i => i.severity = "error")) = false ∧
    needs_revision q
        (merge_evaluations (analyze_with_rules content) default_evaluation).issues =
      decide (q < mkRat 3 5) := by
  have hi := analyze_with_rules_issues content
  have hall : ((analyze_with_rules content).issues.all
      (fun i => i.severity = "warning")) = true := by
    rw [hi]
    by_cases h : content.length < 100 <;> simp [h]
  have hmerged : (merge_evaluations (analyze_with_rules content) default_evaluation).issues =
      (analyze_with_rules content).issues := by
    simp only [merge_evaluations, default_evaluation]
    rw [hi]
    by_cases h : content.length < 100 <;> simp [h, valid_categories, valid_severities]
  have hany : ((merge_evaluations (analyze_with_rules content) default_evaluation).issues.any
      (fun i => i.severity = "error")) = false := by
    rw [hmerged, hi]
    by_cases h : content.length < 100 <;> simp [h]
  refine ⟨hall, hany, ?_⟩
  rw [needs_revision, hany]
  simp

/-!
## Claim C1: average score and best scenes
-/

theorem insert_desc_perm (x : LScene × EvalRec) (l : List (LScene × EvalRec)) :
    (insert_desc x l).Perm (x :: l) := by
  induction l with
  | nil => exact List.Perm.refl _
  | cons y ys ih =>
    rw [insert_desc]
    by_cases h : x.2.overall_score ≤ y.2.overall_score
    · rw [if_pos h]
      exact (ih.cons y).trans (List.Perm.swap x y ys)
    · rw [if_neg h]

theorem sort_desc_aux_perm (l acc : List (LScene × EvalRec)) :
    (l.foldl (fun a x => insert_desc x a) acc).Perm (acc ++ l) := by
  induction l generalizing acc with
  | nil => simp
  | cons x xs ih =>
    simp only [List.foldl_cons]
    exact ((ih (insert_desc x acc)).trans
      (((insert_desc_perm x acc).append_right xs).trans List.perm_middle.symm))

theorem sort_desc_perm (l : List (LScene × EvalRec)) : (sort_desc l).Perm l := by
  simpa using sort_desc_aux_perm l []

theorem insert_desc_sorted (x : LScene × EvalRec) {l : List (LScene × EvalRec)}
    (h : l.Pairwise (fun a b => b.2.overall_score ≤ a.2.overall_score)) :
    (insert_desc x l).Pairwise (fun a b => b.2.overall_score ≤ a.2.overall_score) := by
  induction l with
  | nil => simp [insert_desc]
  | cons y ys ih =>
    rw [List.pairwise_cons] at h
    obtain ⟨hy, hys⟩ := h
    rw [insert_desc]
    by_cases hxy : x.2.overall_score ≤ y.2.overall_score
    · rw [if_pos hxy]
      refine List.pairwise_cons.mpr ⟨?_, ih hys⟩
      intro z hz
      rcases List.mem_cons.mp (((insert_desc_perm x ys).mem_iff).mp hz) with hz1 | hz1
      · exact hz1 ▸ hxy
      · exact hy z hz1
    · rw [if_neg hxy]
      have hyx : y.2.overall_score ≤ x.2.overall_score := le_of_lt (lt_of_not_le hxy)
      refine List.pairwise_cons.mpr ⟨?_, List.pairwise_cons.mpr ⟨hy, hys⟩⟩
      intro z hz
      rcases List.mem_cons.mp hz with hz1 | hz1
      · exact hz1 ▸ hyx
      · exact le_trans (hy z hz1) hyx

theorem sort_desc_aux_sorted (l : List (LScene × EvalRec)) :
    ∀ acc, acc.Pairwise (fun a b => b.2.overall_score ≤ a.2.overall_score) →
      (l.foldl (fun a x => insert_desc x a) acc).Pairwise
        (fun a b => b.2.overall_score ≤ a.2.overall_score) := by
  induction l with
  | nil => intro acc hacc; simpa using hacc
  | cons x xs ih =>
    intro acc hacc
    simp only [List.foldl_cons]
    exact ih _ (insert_desc_sorted x hacc)

theorem sort_desc_sorted (l : List (LScene × EvalRec)) :
    (sort_desc l).Pairwise (fun a b => b.2.overall_score ≤ a.2.overall_score) := by
  exact sort_desc_aux_sorted l [] (List.Pairwise.nil)

/-- Claim C1: for a project with at least one evaluated qualifying scene,
the Learning-Context Aggregator's `avg_score` is the arithmetic mean of
`overall_score` over all evaluated qualifying scenes, and `best_scenes` is
the image of the first three elements of a descending-sorted permutation
of those scenes (fewer when fewer exist), each entry carrying the scene's
type, its score, and the first 500 characters of its content. -/
theorem build_learning_context_scores_spec (episodes : List (List LScene))
    (cur : Option ℕ) (h : evaluated_pairs episodes cur ≠ []) :
    (build_learning_context episodes cur).avg_score =
      ((evaluated_pairs episodes cur).map (fun p => p.2.overall_score)).sum /
        ((evaluated_pairs episodes cur).length : ℚ) ∧
    (build_learning_context episodes cur).best_scenes =
      ((sort_desc (evaluated_pairs episodes cur)).take 3).map best_scene_entry ∧
    (sort_desc (evaluated_pairs episodes cur)).Perm (evaluated_pairs episodes cur) ∧
    (sort_desc (evaluated_pairs episodes cur)).Pairwise
      (fun a b => b.2.overall_score ≤ a.2.overall_score) ∧
    (build_learning_context episodes cur).best_scenes.length =
      min 3 (evaluated_pairs episodes cur).length ∧
    ∀ b ∈ (build_learning_context episodes cur).best_scenes,
      b.content_preview.length ≤ 500 := by
  have hE : (evaluated_pairs episodes cur).isEmpty = false := by
    cases hE : (evaluated_pairs episodes cur).isEmpty
    · rfl
    · exact absurd (List.isEmpty_iff.mp hE) h
  have hSE : ((evaluated_pairs episodes cur).map (fun p => p.2.overall_score)).isEmpty
      = false := by
    cases hSE : ((evaluated_pairs episodes cur).map (fun p => p.2.overall_score)).isEmpty
    · rfl
    · rw [List.isEmpty_iff, List.map_eq_nil_iff] at hSE
      exact absurd hSE h
  refine ⟨?_, ?_, sort_desc_perm _, sort_desc_sorted _, ?_, ?_⟩
  · simp only [build_learning_context, hE, Bool.false_eq_true, if_false, hSE]
    rw [qsum_eq, qdivNat_eq, List.length_map]
  · simp only [build_learning_context, hE, Bool.false_eq_true, if_false]
  · simp only [build_learning_context, hE, Bool.false_eq_true, if_false]
    rw [List.length_map, List.length_take, (sort_desc_perm _).length_eq]
  · simp only [build_learning_context, hE, Bool.false_eq_true, if_false]
    intro b hb
    rw [List.mem_map] at hb
    obtain ⟨p, _, hp⟩ := hb
    rw [← hp]
    exact List.length_take_le _ _

/-- Witness for C1 (end-to-end scenario 3): with four evaluated scenes
scoring 0.6, 0.9, 0.4, 0.85 the aggregator reports `avg_score = 0.6875`
and the three best scenes in descending order 0.9, 0.85, 0.6. -/
theorem build_learning_context_scores_spec_witness :
    evaluated_pairs eps4 none ≠ [] ∧
    (build_learning_context eps4 none).avg_score = 0.6875 ∧
    (build_learning_context eps4 none).best_scenes =
      [ { scene_type := "talk", score := mkRat 9 10
        , content_preview := List.replicate 60 '나' }
      , { scene_type := "highlight", score := mkRat 17 20
        , content_preview := List.replicate 60 '라' }
      , { scene_type := "opening", score := mkRat 3 5
        , content_preview := List.replicate 60 '가' } ] := by
  have hne : evaluated_pairs eps4 none ≠ [] := by decide
  obtain ⟨h1, h2, _, _, _, _⟩ := build_learning_context_scores_spec eps4 none hne
  refine ⟨hne, ?_, ?_⟩
  · rw [h1]
    have he : evaluated_pairs eps4 none =
        [ (lsc 1 "opening" '가' (some (evr (mkRat 3 5))), evr (mkRat 3 5))
        , (lsc 2 "talk" '나' (some (evr (mkRat 9 10))), evr (mkRat 9 10))
        , (lsc 3 "closing" '다' (some (evr (mkRat 2 5))), evr (mkRat 2 5))
        , (lsc 4 "highlight" '라' (some (evr (mkRat 17 20))), evr (mkRat 17 20)) ] := by
      decide
    rw [he]
    simp only [List.map_cons, List.map_nil, List.sum_cons, List.sum_nil, List.length_cons,
      List.length_nil]
    norm_num [evr, Rat.mkRat_eq_div]
  · rw [h2]
    decide

/-!
## Claim C5: the character-example scan
-/

theorem scan_line_eq (m : List (List Char × List (List Char))) (line : List Char) :
    scan_line m line =
      match line_candidate line with
      | none => m
      | some pr => insert_example m pr.1 pr.2 := by
  rw [scan_line, line_candidate]
  rcases splitFirst ':' line with _ | ⟨p0, p1⟩
  · rfl
  · by_cases h : pyStrip p0 ≠ [] ∧ pyStrip p1 ≠ [] ∧ 10 < (pyStrip p1).length <;>
      simp [h]

theorem foldl_scan_line_eq (lines : List (List Char)) :
    ∀ m, lines.foldl scan_line m =
      (lines.filterMap line_candidate).foldl
        (fun acc pr => insert_example acc pr.1 pr.2) m := by
  induction lines with
  | nil => intro m; rfl
  | cons line rest ih =>
    intro m
    rw [List.foldl_cons, List.filterMap_cons, scan_line_eq]
    rcases line_candidate line with _ | pr
    · exact ih m
    · rw [List.foldl_cons]
      exact ih _

theorem scan_scene_eq (m : List (List Char × List (List Char))) (s : LScene) :
    scan_scene m s =
      (scene_candidates s).foldl (fun acc pr => insert_example acc pr.1 pr.2) m := by
  rw [scan_scene, scene_candidates]
  rcases s.content with _ | c
  · rfl
  · by_cases h : c = [] <;> simp only [h, if_true, if_false]
    · rfl
    · exact foldl_scan_line_eq _ m

theorem foldl_scan_scenes (scenes : List LScene) :
    ∀ m, scenes.foldl scan_scene m =
      (scenes.flatMap scene_candidates).foldl
        (fun acc pr => insert_example acc pr.1 pr.2) m := by
  induction scenes with
  | nil => intro m; rfl
  | cons s rest ih =>
    intro m
    rw [List.foldl_cons, List.flatMap_cons, List.foldl_append, scan_scene_eq]
    exact ih _

theorem lookup_append_single (m : List (List Char × List (List Char))) (n : List Char)
    (w : List (List Char)) (h : m.lookup n = none) :
    (m ++ [(n, w)]).lookup n = some w := by
  induction m with
  | nil => simp [List.lookup_cons]
  | cons pr m ih =>
    rcases pr with ⟨k, v⟩
    rw [List.lookup_cons] at h
    rw [List.cons_append, List.lookup_cons]
    cases hk : n == k with
    | true => rw [hk] at h; exact absurd h (by simp)
    | false =>
      rw [hk] at h
      exact ih h

theorem lookup_append_single_ne (m : List (List Char × List (List Char))) (n a : List Char)
    (w : List (List Char)) (hne : a ≠ n) :
    (m ++ [(n, w)]).lookup a = m.lookup a := by
  induction m with
  | nil =>
    simp only [List.nil_append, List.lookup_cons, List.lookup_nil]
    have : (a == n) = false := beq_eq_false_iff_ne.mpr hne
    rw [this]
  | cons pr m ih =>
    rcases pr with ⟨k, v⟩
    rw [List.cons_append, List.lookup_cons, List.lookup_cons]
    cases hk : a == k with
    | true => rfl
    | false => exact ih

theorem take2_absorb (L X : List (List Char)) :
    ((L.take 2) ++ X).take 2 = (L ++ X).take 2 := by
  match L with
  | [] => rfl
  | [a] => rfl
  | a :: b :: L' => rfl

theorem insert_example_lookup_self (m : List (List Char × List (List Char)))
    (n d : List Char) (hlen : ∀ pr ∈ m, pr.2.length ≤ 2) :
    (insert_example m n d).lookup n =
      some ((((m.lookup n).getD []) ++ [d]).take 2) := by
  rw [insert_example]
  cases hl : m.lookup n with
  | none =>
    rw [lookup_append_single m n [d] hl]
    rfl
  | some l =>
    induction m with
    | nil => simp [List.lookup] at hl
    | cons pr m ih =>
      rcases pr with ⟨k, v⟩
      rw [List.lookup_cons] at hl
      have hsplit : (if (k, v).1 = n ∧ (k, v).2.length < 2 then ((k, v).1, (k, v).2 ++ [d])
          else (k, v)) = (k, if k = n ∧ v.length < 2 then v ++ [d] else v) := by
        by_cases hc : k = n ∧ v.length < 2 <;> simp [hc]
      rw [List.map_cons, hsplit, List.lookup_cons]
      cases hk : n == k with
      | true =>
        rw [hk] at hl
        have hkn : k = n := (beq_iff_eq.mp hk).symm
        have hv : v = l := by
          simpa using hl
        have hvlen : v.length ≤ 2 := hlen (k, v) (List.mem_cons_self _ _)
        subst hv
        simp only [Option.getD_some]
        by_cases hlt : v.length < 2
        · rw [if_pos ⟨hkn, hlt⟩]
          have : (v ++ [d]).length ≤ 2 := by
            rw [List.length_append, List.length_singleton]
            omega
          rw [List.take_of_length_le this]
        · have hv2 : v.length = 2 := by omega
          rw [if_neg (by intro hc; exact hlt hc.2)]
          rw [List.take_append_eq_append_take, List.take_of_length_le (by omega), hv2]
          simp
      | false =>
        rw [hk] at hl
        exact ih (fun pr hpr => hlen pr (List.mem_cons_of_mem _ hpr)) hl

theorem map_upd_lookup_ne (m : List (List Char × List (List Char))) (n d a : List Char)
    (hne : a ≠ n) :
    (m.map (fun pr => if pr.1 = n ∧ pr.2.length < 2 then (pr.1, pr.2 ++ [d]) else pr)).lookup a
      = m.lookup a := by
  induction m with
  | nil => rfl
  | cons pr m ih =>
    rcases pr with ⟨k, v⟩
    have hsplit : (if (k, v).1 = n ∧ (k, v).2.length < 2 then ((k, v).1, (k, v).2 ++ [d])
        else (k, v)) = (k, if k = n ∧ v.length < 2 then v ++ [d] else v) := by
      by_cases hc : k = n ∧ v.length < 2 <;> simp [hc]
    rw [List.map_cons, hsplit, List.lookup_cons, List.lookup_cons]
    cases hk : a == k with
    | true =>
      have hka : k = a := (beq_iff_eq.mp hk).symm
      have : ¬(k = n ∧ v.length < 2) := by
        intro hc
        exact hne (hka ▸ hc.1)
      rw [if_neg this]
    | false => exact ih

theorem insert_example_lookup_ne (m : List (List Char × List (List Char)))
    (n d a : List Char) (hne : a ≠ n) :
    (insert_example m n d).lookup a = m.lookup a := by
  rw [insert_example]
  cases hl : m.lookup n with
  | none => exact lookup_append_single_ne m n a [d] hne
  | some l => exact map_upd_lookup_ne m n d a hne

theorem insert_example_len (m : List (List Char × List (List Char))) (n d : List Char)
    (hlen : ∀ pr ∈ m, pr.2.length ≤ 2) :
    ∀ pr ∈ insert_example m n d, pr.2.length ≤ 2 := by
  rw [insert_example]
  cases m.lookup n with
  | none =>
    intro pr hpr
    rcases List.mem_append.mp hpr with hpr' | hpr'
    · exact hlen pr hpr'
    · rcases List.mem_singleton.mp hpr' with rfl
      simp
  | some l =>
    intro pr hpr
    rcases List.mem_map.mp hpr with ⟨q, hq, hfq⟩
    by_cases hc : q.1 = n ∧ q.2.length < 2
    · rw [if_pos hc] at hfq
      rw [← hfq]
      have := hc.2
      simp only [List.length_append, List.length_singleton]
      omega
    · rw [if_neg hc] at hfq
      rw [← hfq]
      exact hlen q hq

theorem insert_example_elem_len (m : List (List Char × List (List Char))) (n d : List Char)
    (hd : d.length ≤ 100) (h : ∀ pr ∈ m, ∀ x ∈ pr.2, x.length ≤ 100) :
    ∀ pr ∈ insert_example m n d, ∀ x ∈ pr.2, x.length ≤ 100 := by
  rw [insert_example]
  cases m.lookup n with
  | none =>
    intro pr hpr x hx
    rcases List.mem_append.mp hpr with hpr' | hpr'
    · exact h pr hpr' x hx
    · rcases List.mem_singleton.mp hpr' with rfl
      rcases List.mem_singleton.mp hx with rfl
      exact hd
  | some l =>
    intro pr hpr x hx
    rcases List.mem_map.mp hpr with ⟨q, hq, hfq⟩
    by_cases hc : q.1 = n ∧ q.2.length < 2
    · rw [if_pos hc] at hfq
      rw [← hfq] at hx
      rcases List.mem_append.mp hx with hx' | hx'
      · exact h q hq x hx'
      · rcases List.mem_singleton.mp hx' with rfl
        exact hd
    · rw [if_neg hc] at hfq
      rw [← hfq] at hx
      exact h q hq x hx

theorem cands_for_cons_self (n : List Char) (d : List Char)
    (rest : List (List Char × List Char)) :
    cands_for n ((n, d) :: rest) = d :: cands_for n rest := by
  simp [cands_for]

theorem cands_for_cons_ne (a n : List Char) (d : List Char)
    (rest : List (List Char × List Char)) (hne : a ≠ n) :
    cands_for a ((n, d) :: rest) = cands_for a rest := by
  simp [cands_for, Ne.symm hne]

theorem fold_insert_len (cands : List (List Char × List Char)) :
    ∀ (m : List (List Char × List (List Char))), (∀ pr ∈ m, pr.2.length ≤ 2) →
      ∀ pr ∈ cands.foldl (fun acc pr => insert_example acc pr.1 pr.2) m,
        pr.2.length ≤ 2 := by
  induction cands with
  | nil => intro m hm; exact hm
  | cons c rest ih =>
    intro m hm
    rw [List.foldl_cons]
    exact ih _ (insert_example_len m c.1 c.2 hm)

theorem fold_insert_elem_len (cands : List (List Char × List Char))
    (hc : ∀ pr ∈ cands, pr.2.length ≤ 100) :
    ∀ (m : List (List Char × List (List Char))),
      (∀ pr ∈ m, ∀ x ∈ pr.2, x.length ≤ 100) →
      ∀ pr ∈ cands.foldl (fun acc pr => insert_example acc pr.1 pr.2) m,
        ∀ x ∈ pr.2, x.length ≤ 100 := by
  induction cands with
  | nil => intro m hm; exact hm
  | cons c rest ih =>
    intro m hm
    rw [List.foldl_cons]
    exact ih (fun pr hpr => hc pr (List.mem_cons_of_mem _ hpr)) _
      (insert_example_elem_len m c.1 c.2 (hc c (List.mem_cons_self _ _)) hm)

theorem lookup_len_le (m : List (List Char × List (List Char))) (a : List Char)
    (l : List (List Char)) (hm : ∀ pr ∈ m, pr.2.length ≤ 2)
    (hl : m.lookup a = some l) : l.length ≤ 2 := by
  induction m with
  | nil => simp [List.lookup] at hl
  | cons pr m ih =>
    rcases pr with ⟨k, v⟩
    rw [List.lookup_cons] at hl
    cases hk : a == k with
    | true =>
      rw [hk] at hl
      have hv : v = l := by simpa using hl
      exact hv ▸ hm (k, v) (List.mem_cons_self _ _)
    | false =>
      rw [hk] at hl
      exact ih (fun pr hpr => hm pr (List.mem_cons_of_mem _ hpr)) hl

theorem fold_insert_lookup (cands : List (List Char × List Char)) :
    ∀ (m : List (List Char × List (List Char))), (∀ pr ∈ m, pr.2.length ≤ 2) →
      ∀ a, (cands.foldl (fun acc pr => insert_example acc pr.1 pr.2) m).lookup a =
        (match m.lookup a with
         | some l => some ((l ++ cands_for a cands).take 2)
         | none =>
           if cands_for a cands = [] then none
           else some ((cands_for a cands).take 2)) := by
  induction cands with
  | nil =>
    intro m hm a
    cases hl : m.lookup a with
    | none =>
      simp only [List.foldl_nil]
      rw [hl]
      simp [cands_for]
    | some l =>
      simp only [List.foldl_nil, cands_for, List.filter_nil, List.map_nil, List.append_nil]
      rw [List.take_of_length_le (lookup_len_le m a l hm hl)]
      exact hl
  | cons c rest ih =>
    intro m hm a
    rcases c with ⟨n, d⟩
    rw [List.foldl_cons]
    rw [ih (insert_example m n d) (insert_example_len m n d hm) a]
    by_cases ha : a = n
    · subst ha
      rw [insert_example_lookup_self m a d hm, cands_for_cons_self]
      cases hl : m.lookup a with
      | some l =>
        simp only [Option.getD_some]
        rw [take2_absorb, List.append_assoc, List.singleton_append]
      | none =>
        simp only [Option.getD_none, List.nil_append]
        rw [take2_absorb, List.singleton_append]
        simp
    · rw [insert_example_lookup_ne m n d a ha, cands_for_cons_ne a n d rest ha]

theorem scene_candidates_len (s : LScene) :
    ∀ pr ∈ scene_candidates s, pr.2.length ≤ 100 := by
  intro pr hpr
  rw [scene_candidates] at hpr
  rcases hcon : s.content with _ | c <;> simp only [hcon] at hpr
  · exact absurd hpr (List.not_mem_nil pr)
  · by_cases hc : c = []
    · rw [if_pos hc] at hpr
      exact absurd hpr (List.not_mem_nil pr)
    · rw [if_neg hc] at hpr
      rcases List.mem_filterMap.mp hpr with ⟨line, _, hline⟩
      rw [line_candidate] at hline
      rcases hsp : splitFirst ':' line with _ | ⟨p0, p1⟩ <;> simp only [hsp] at hline
      · exact absurd hline (by simp)
      · by_cases hcond : pyStrip p0 ≠ [] ∧ pyStrip p1 ≠ [] ∧ 10 < (pyStrip p1).length
        · rw [if_pos hcond] at hline
          injection hline with h
          subst h
          exact List.length_take_le _ _
        · rw [if_neg hcond] at hline
          exact absurd hline (by simp)

/-- Claim C5 (amended): `character_examples` is built by scanning the
content of the *first* 5 qualifying scenes in traversal order (not the
most recent 5), provided at least one qualifying scene is evaluated
(otherwise the early return leaves the map empty): for every speaker
name, the stored examples are exactly the first two accepted dialogue
candidates for that name (speaker line with a colon, non-empty stripped
speaker and dialogue, dialogue strictly longer than 10 characters,
truncated to 100); at most two examples are kept per speaker. -/
theorem build_learning_context_character_examples_spec
    (episodes : List (List LScene)) (cur : Option ℕ)
    (h : evaluated_pairs episodes cur ≠ []) :
    (∀ a : List Char,
      ((build_learning_context episodes cur).character_examples).lookup a =
        (if cands_for a (((all_qualifying_scenes episodes cur).take 5).flatMap
              scene_candidates) = []
         then none
         else some ((cands_for a (((all_qualifying_scenes episodes cur).take 5).flatMap
             scene_candidates)).take 2))) ∧
    (∀ pr ∈ (build_learning_context episodes cur).character_examples,
      pr.2.length ≤ 2) ∧
    (∀ pr ∈ (build_learning_context episodes cur).character_examples,
      ∀ x ∈ pr.2, x.length ≤ 100) := by
  have hE : (evaluated_pairs episodes cur).isEmpty = false := by
    cases hE : (evaluated_pairs episodes cur).isEmpty
    · rfl
    · exact absurd (List.isEmpty_iff.mp hE) h
  have hchar : (build_learning_context episodes cur).character_examples =
      (((all_qualifying_scenes episodes cur).take 5).flatMap scene_candidates).foldl
        (fun acc pr => insert_example acc pr.1 pr.2) [] := by
    simp only [build_learning_context, hE, Bool.false_eq_true, if_false]
    exact foldl_scan_scenes _ []
  refine ⟨?_, ?_, ?_⟩
  · intro a
    rw [hchar, fold_insert_lookup _ [] (by simp) a]
    simp only [List.lookup_nil]
  · rw [hchar]
    exact fold_insert_len _ [] (by simp)
  · rw [hchar]
    refine fold_insert_elem_len _ ?_ [] (by simp)
    intro pr hpr
    rcases List.mem_flatMap.mp hpr with ⟨s, _, hs⟩
    exact scene_candidates_len s pr hs

/-- Claim C5 counterexample: in a six-scene project whose third scene has
a 10-character dialogue line and whose sixth (most recent) scene has the
only longer speaker line, the source's map is empty — it scans the first
5 qualifying scenes and requires dialogues strictly longer than 10
characters — while the spec's construction (most recent 5 scenes,
dialogues of at least 10 characters) is non-empty. -/
theorem character_examples_recent5_cex :
    (build_learning_context eps6 none).character_examples = [] ∧
    character_examples_spec (all_qualifying_scenes eps6 none) ≠ [] := by
  constructor
  · decide
  · decide

/-- Witness for the amended C5 theorem: a project whose single scene has
one qualifying speaker line stores exactly that dialogue under the
speaker's name. -/
theorem character_examples_code_spec_witness :
    evaluated_pairs eps7 none ≠ [] ∧
    ((build_learning_context eps7 none).character_examples).lookup (("김철수").toList) =
      some [("안녕하세요 반갑습니다 여러분").toList] := by
  have h := (build_learning_context_character_examples_spec eps7 none (by decide)).1
    (("김철수").toList)
  refine ⟨by decide, ?_⟩
  rw [h]
  decide

/-!
## Claim C7: word count tracks content
-/

/-- Claim C7 (amended): the stored `word_count` equals the content length
after `create_scene` (0 for empty content), after `update_scene` when the
provided content is a string, and after the generation route's content
write; an update without content, or with content explicitly set to null,
leaves `word_count` unchanged (in the null case the stale value survives —
the exception the counterexample exhibits).  `SceneCreate`/`SceneUpdate`
expose no `word_count` field, so it is never settable independently. -/
theorem word_count_tracks_content :
    (∀ (id sn : ℕ) (c : List Char) (g t : Option (List Char)),
      word_count_invariant (create_scene_row id sn c g t)) ∧
    (∀ (s : SceneRow) (c : List Char),
      word_count_invariant (update_scene_row s (some (some c)))) ∧
    (∀ (s : SceneRow) (c g : List Char),
      word_count_invariant (generate_route_update s c g)) ∧
    (∀ s : SceneRow, (update_scene_row s none).word_count = s.word_count ∧
      (update_scene_row s (some none)).word_count = s.word_count) := by
  refine ⟨?_, ?_, ?_, ?_⟩
  · intro id sn c g t
    by_cases hc : c = [] <;> simp [create_scene_row, word_count_invariant, hc]
  · intro s c
    simp [update_scene_row, word_count_invariant]
  · intro s c g
    simp [generate_route_update, word_count_invariant]
  · intro s
    exact ⟨rfl, rfl⟩

/-- Claim C7 counterexample: updating a scene with content explicitly set
to null clears the content but keeps the previous word count (8 here), so
`word_count = length(content)` (0 for absent content) fails right after a
content-setting `update_scene` call. -/
theorem word_count_null_update_cex :
    ¬ word_count_invariant (update_scene_row c7_scene (some none)) := by
  rw [word_count_invariant]
  decide

/-!
## Claim C8: evaluation replacement
-/

theorem filter_erase_first (sid : ℕ) (db : List EvalRow) :
    (erase_first_eval sid db).filter (fun x => decide (x.scene_id = sid)) =
      (db.filter (fun x => decide (x.scene_id = sid))).tail := by
  induction db with
  | nil => rfl
  | cons e es ih =>
    rw [erase_first_eval]
    by_cases h : e.scene_id = sid
    · rw [if_pos h, List.filter_cons]
      simp [h]
    · rw [if_neg h]
      have hf : (decide (e.scene_id = sid)) = false := by simp [h]
      rw [List.filter_cons, List.filter_cons, hf]
      simp only [Bool.false_eq_true, if_false]
      exact ih

theorem replace_filter_singleton (db : List EvalRow) (sid : ℕ) (r : EvalRow)
    (hdb : (db.filter (fun x => decide (x.scene_id = sid))).length ≤ 1)
    (hr : r.scene_id = sid) :
    ((match get_evaluation_by_scene db sid with
      | some _ => erase_first_eval sid db
      | none => db) ++ [r]).filter (fun x => decide (x.scene_id = sid)) = [r] := by
  have hfr : [r].filter (fun x => decide (x.scene_id = sid)) = [r] := by
    rw [List.filter_cons]
    simp [hr]
  rw [get_evaluation_by_scene]
  cases hL : db.filter (fun x => decide (x.scene_id = sid)) with
  | nil =>
    simp only [hL, List.head?_nil]
    rw [List.filter_append, hL, hfr, List.nil_append]
  | cons a rest =>
    have hlen : rest.length = 0 := by
      have hdb2 := hdb
      rw [hL, List.length_cons] at hdb2
      omega
    have hrest : rest = [] := List.length_eq_zero.mp hlen
    simp only [hL, List.head?_cons]
    rw [List.filter_append, filter_erase_first, hL, hrest, hfr]
    rfl

/-- Claim C8: replacing a scene's Evaluation (both `update_evaluation` and
the generation route's auto-evaluation) is delete-then-insert: afterwards
exactly one Evaluation row exists for the scene and it carries the new
values — never zero, never two.  Hypotheses: the store satisfies the
uniqueness constraint beforehand (at most one row per scene), and the new
evaluation targets the scene. -/
theorem update_evaluation_exactly_one (db : List EvalRow) (sid : ℕ) (e : EvalRow)
    (hdb : (db.filter (fun x => decide (x.scene_id = sid))).length ≤ 1)
    (he : e.scene_id = sid) :
    (update_evaluation db sid e).filter (fun x => decide (x.scene_id = sid)) = [e] ∧
    ∀ ev : SampleEval,
      (auto_evaluate_replace db sid ev).filter (fun x => decide (x.scene_id = sid)) =
        [eval_row_of sid ev] := by
  constructor
  · have hshape : update_evaluation db sid e =
        (match get_evaluation_by_scene db sid with
         | some _ => erase_first_eval sid db
         | none => db) ++ [e] := by
      rw [update_evaluation]
      cases get_evaluation_by_scene db sid <;> rfl
    rw [hshape]
    exact replace_filter_singleton db sid e hdb he
  · intro ev
    rw [auto_evaluate_replace]
    exact replace_filter_singleton db sid (eval_row_of sid ev) hdb rfl

/-- Witness for C8: replacing scene 3's evaluation in a store holding
evaluations for scenes 7 and 3 leaves exactly the new row for scene 3. -/
theorem update_evaluation_exactly_one_witness :
    (update_evaluation c8_db 3 (c8_row 3 (mkRat 9 10))).filter
        (fun x => decide (x.scene_id = 3)) = [c8_row 3 (mkRat 9 10)] := by
  exact (update_evaluation_exactly_one c8_db 3 (c8_row 3 (mkRat 9 10))
    (by decide) (by decide)).1

/-!
## Claim C9: previous-scene summaries
-/

theorem summarize_content_length_le (content : Option (List Char)) :
    (summarize_content content).length ≤ 153 := by
  rcases content with _ | c
  · simp [summarize_content]
  · simp only [summarize_content]
    by_cases hc : c = []
    · rw [if_pos hc]
      simp
    · rw [if_neg hc]
      by_cases hl : 150 < ([' '].intercalate (List.take 3 (List.splitOn '\n' c))).length
      · rw [if_pos hl]
        rw [List.length_append, List.length_take]
        have h3 : (("...").toList).length = 3 := by decide
        rw [h3]
        omega
      · rw [if_neg hl]
        omega

/-- Claim C9: the Context Builder's prior-scene summary list consists of
the episode's scenes (ascending scene number), restricted — when a
positive current scene number is given — to scenes strictly before it,
truncated to the most recent 5 (`scenes[-5:]`); each summary joins the
first 3 content lines with spaces and hard-truncates to 150 characters
plus an ellipsis when exceeded (so summaries never exceed 153
characters), and the output stays in ascending scene-number order. -/
theorem build_previous_scenes_context_spec (scenes : List PrevScene) (current : Option ℕ)
    (hs : scenes.Pairwise (fun a b => a.scene_number ≤ b.scene_number))
    (hc : ∀ n, current = some n → 0 < n) :
    build_previous_scenes_context scenes current =
      (takeLast 5 (spec_restrict scenes current)).map (fun s =>
        { scene_number := s.scene_number, scene_type := s.scene_type
        , summary := summarize_content s.content }) ∧
    (build_previous_scenes_context scenes current).Pairwise
      (fun a b => a.scene_number ≤ b.scene_number) ∧
    (build_previous_scenes_context scenes current).length ≤ 5 ∧
    ∀ en ∈ build_previous_scenes_context scenes current, en.summary.length ≤ 153 := by
  have hres : previous_scenes_restrict scenes current = spec_restrict scenes current := by
    rcases current with _ | n
    · rfl
    · simp only [previous_scenes_restrict, spec_restrict]
      have hn : n ≠ 0 := Nat.pos_iff_ne_zero.mp (hc n rfl)
      rw [if_pos hn]
  have hdef : build_previous_scenes_context scenes current =
      (takeLast 5 (spec_restrict scenes current)).map (fun s =>
        { scene_number := s.scene_number, scene_type := s.scene_type
        , summary := summarize_content s.content }) := by
    rw [build_previous_scenes_context, hres]
  refine ⟨hdef, ?_, ?_, ?_⟩
  · rw [hdef]
    rw [List.pairwise_map]
    have hres2 : (spec_restrict scenes current).Pairwise
        (fun a b => a.scene_number ≤ b.scene_number) := by
      rcases current with _ | n
      · exact hs
      · simp only [spec_restrict]
        exact hs.filter _
    exact (hres2.sublist (List.drop_sublist _ _))
  · rw [hdef, List.length_map, takeLast, List.length_drop]
    omega
  · rw [hdef]
    intro en hen
    rcases List.mem_map.mp hen with ⟨s, _, hsen⟩
    rw [← hsen]
    exact summarize_content_length_le s.content

/-- Witness for C9: three scenes with current scene number 3 yield the
two earlier scenes' summaries in order, the second joining its first
three lines. -/
theorem build_previous_scenes_context_spec_witness :
    build_previous_scenes_context c9_scenes (some 3) =
      [ { scene_number := 1, scene_type := "opening", summary := ("첫 장면").toList }
      , { scene_number := 2, scene_type := "talk"
        , summary := ("둘째 장면 둘째 내용 셋째 줄").toList } ] := by
  have h := build_previous_scenes_context_spec c9_scenes (some 3) (by decide)
    (by intro n hn; injection hn with hn2; omega)
  rw [h.1]
  decide

/-!
## Claim C6: scene display ids
-/

theorem try_suffixes_spec (existing : List (List Char)) (base : List Char) (t : ℕ) :
    ∀ (fuel s : ℕ),
      (try_suffixes existing base t fuel s ∉ existing) ∨
      (try_suffixes existing base t fuel s = base ++ '_' :: Nat.toDigits 10 t ∧
        ∀ k, s ≤ k → k < s + fuel → with_suffix base k ∈ existing) := by
  intro fuel
  induction fuel with
  | zero =>
    intro s
    right
    refine ⟨rfl, ?_⟩
    intro k h1 h2
    exact absurd h2 (by omega)
  | succ n ih =>
    intro s
    rw [try_suffixes]
    by_cases h : with_suffix base s ∈ existing
    · rw [if_pos h]
      rcases ih (s + 1) with h2 | ⟨heq, hall⟩
      · exact Or.inl h2
      · refine Or.inr ⟨heq, ?_⟩
        intro k hk1 hk2
        by_cases hks : k = s
        · exact hks ▸ h
        · exact hall k (by omega) (by omega)
    · rw [if_neg h]
      exact Or.inl h

/-- Claim C6 (amended): the display id is
`S{season:02d}E{episode:02d}_SC{scene:02d}` with season fixed at 1; when
the base id is free it is returned as is; in general the generated id is
either fresh (not among existing ids) — in particular whenever any of the
base id or the numeric-suffix variants `_1`…`_100` is still free — or it
is the timestamp-fallback id, taken only after the base id and all 100
numeric suffixes were found taken, and returned without a freshness
check (so only that final fallback can ever collide). -/
theorem generate_scene_id_spec (existing : List (List Char)) (en sn t : ℕ) :
    (scene_display_id 3 2 = ("S01E03_SC02").toList) ∧
    (scene_display_id en sn ∉ existing →
      generate_scene_id existing en sn t = scene_display_id en sn) ∧
    ((generate_scene_id existing en sn t ∉ existing) ∨
      (generate_scene_id existing en sn t =
          scene_display_id en sn ++ '_' :: Nat.toDigits 10 t ∧
        scene_display_id en sn ∈ existing ∧
        ∀ k, 1 ≤ k → k ≤ 100 → with_suffix (scene_display_id en sn) k ∈ existing)) := by
  refine ⟨by decide, ?_, ?_⟩
  · intro h
    rw [generate_scene_id, if_neg h]
  · rw [generate_scene_id]
    by_cases hb : scene_display_id en sn ∈ existing
    · rw [if_pos hb]
      rcases try_suffixes_spec existing (scene_display_id en sn) t 100 1 with h2 | ⟨heq, hall⟩
      · exact Or.inl h2
      · exact Or.inr ⟨heq, hb, fun k hk1 hk2 => hall k hk1 (by omega)⟩
    · rw [if_neg hb]
      exact Or.inl hb

/-- Witness for the amended C6 theorem: with an empty store the base id
is returned, in the documented format. -/
theorem generate_scene_id_spec_witness :
    generate_scene_id [] 3 2 0 = ("S01E03_SC02").toList := by
  have h := (generate_scene_id_spec [] 3 2 0).2.1 (by decide)
  rw [h]
  exact (generate_scene_id_spec [] 3 2 0).1

/-- Claim C6 counterexample: when the base id, all 100 numeric-suffix
variants, and the timestamp variant for the current timestamp are already
taken, `generate_scene_id` returns an id that is already in the store —
the timestamp fallback is not freshness-checked, so two scenes can share
a `scene_id`. -/
theorem generate_scene_id_collision_cex :
    generate_scene_id c6_existing 1 1 1700000000 ∈ c6_existing := by
  decide

/-!
## Claim C4: the no-client generation path
-/

theorem pyRound2_cases (x : ℚ) :
    pyRound2 x = mkRat (Rat.floor (qmul x (qofNat 100))) 100 ∨
    pyRound2 x = mkRat (Rat.floor (qmul x (qofNat 100)) + 1) 100 := by
  simp only [pyRound2]
  split_ifs
  · exact Or.inl rfl
  · exact Or.inr rfl
  · exact Or.inl rfl
  · exact Or.inr rfl

theorem pyRound2_ge (x : ℚ) (m : ℤ) (h : (m : ℚ) / 100 ≤ x) :
    (m : ℚ) / 100 ≤ pyRound2 x := by
  have hmn : m ≤ Rat.floor (qmul x (qofNat 100)) := by
    rw [ratFloor_eq, qmul_eq, qofNat_eq]
    apply Int.le_floor.mpr
    rw [div_le_iff₀ (by norm_num : (0:ℚ) < 100)] at h
    push_cast
    exact h
  rcases pyRound2_cases x with hc | hc
  · rw [hc, Rat.mkRat_eq_div]
    push_cast
    exact (div_le_div_iff_of_pos_right (by norm_num : (0:ℚ) < 100)).mpr (by exact_mod_cast hmn)
  · rw [hc, Rat.mkRat_eq_div]
    push_cast
    refine (div_le_div_iff_of_pos_right (by norm_num : (0:ℚ) < 100)).mpr ?_
    have : m ≤ Rat.floor (qmul x (qofNat 100)) + 1 := by omega
    exact_mod_cast this

theorem sample_templates_nonempty (n0 n1 g note : List Char) :
    script_opening n0 n1 g note ≠ [] ∧ script_dialogue n0 n1 g note ≠ [] ∧
    script_talk n0 n1 g note ≠ [] ∧ script_highlight n0 n1 g note ≠ [] ∧
    script_closing n0 n1 g note ≠ [] := by
  refine ⟨?_, ?_, ?_, ?_, ?_⟩ <;> intro heq <;>
    apply absurd (congrArg List.length heq)
  · simp only [script_opening, List.length_append, List.length_nil]
    have hp : 0 <
        ((": (카메라를 보며 에너지 넘치게) 안녕하세요! 오늘도 찾아왔습니다.\n\n").toList).length := by
      decide
    omega
  · simp only [script_dialogue, List.length_append, List.length_nil]
    have hp : 0 < ((": 이 부분이 핵심인 것 같아요.\n\n").toList).length := by decide
    omega
  · simp only [script_talk, List.length_append, List.length_nil]
    have hp : 0 < ((": 자, 본격적으로 들어가 보겠습니다.\n\n").toList).length := by decide
    omega
  · simp only [script_highlight, List.length_append, List.length_nil]
    have hp : 0 < ((": (강조하며) 여기가 오늘의 핵심입니다!\n\n").toList).length := by decide
    omega
  · simp only [script_closing, List.length_append, List.length_nil]
    have hp : 0 < ((": 자, 오늘 내용을 정리해 보면요.\n\n").toList).length := by decide
    omega

theorem generate_sample_script_mem (characters : List (List Char)) (goal : List Char)
    (scene_type : String) (lc : Option LearningContext) :
    generate_sample_script characters goal scene_type lc ∈
      [ script_opening (((default_char_names characters).get? 0).getD [])
          (((default_char_names characters).get? 1).getD []) goal (style_note lc)
      , script_dialogue (((default_char_names characters).get? 0).getD [])
          (((default_char_names characters).get? 1).getD []) goal (style_note lc)
      , script_talk (((default_char_names characters).get? 0).getD [])
          (((default_char_names characters).get? 1).getD []) goal (style_note lc)
      , script_highlight (((default_char_names characters).get? 0).getD [])
          (((default_char_names characters).get? 1).getD []) goal (style_note lc)
      , script_closing (((default_char_names characters).get? 0).getD [])
          (((default_char_names characters).get? 1).getD []) goal (style_note lc) ] := by
  simp only [generate_sample_script]
  split_ifs
  · exact List.Mem.head _
  · exact List.Mem.tail _ (List.Mem.head _)
  · exact List.Mem.tail _ (List.Mem.tail _ (List.Mem.head _))
  · exact List.Mem.tail _ (List.Mem.tail _ (List.Mem.tail _ (List.Mem.head _)))
  · exact List.Mem.tail _ (List.Mem.tail _ (List.Mem.tail _ (List.Mem.tail _
      (List.Mem.head _))))
  · exact List.Mem.tail _ (List.Mem.head _)

theorem generate_sample_script_ne_nil (characters : List (List Char)) (goal : List Char)
    (scene_type : String) (lc : Option LearningContext) :
    generate_sample_script characters goal scene_type lc ≠ [] := by
  obtain ⟨ho, hd, ht, hh, hc⟩ := sample_templates_nonempty
    (((default_char_names characters).get? 0).getD [])
    (((default_char_names characters).get? 1).getD []) goal (style_note lc)
  simp only [generate_sample_script]
  split_ifs
  · exact ho
  · exact hd
  · exact ht
  · exact hh
  · exact hc
  · exact hd

theorem generate_sample_script_default (characters : List (List Char)) (goal : List Char)
    (scene_type : String) (lc : Option LearningContext)
    (h : scene_type ∉ (["opening", "dialogue", "talk", "highlight", "closing"] : List String)) :
    generate_sample_script characters goal scene_type lc =
      script_dialogue (((default_char_names characters).get? 0).getD [])
        (((default_char_names characters).get? 1).getD []) goal (style_note lc) := by
  simp only [generate_sample_script]
  have e1 : ¬ scene_type = "opening" := fun he => h (by rw [he]; simp)
  have e2 : ¬ scene_type = "dialogue" := fun he => h (by rw [he]; simp)
  have e3 : ¬ scene_type = "talk" := fun he => h (by rw [he]; simp)
  have e4 : ¬ scene_type = "highlight" := fun he => h (by rw [he]; simp)
  have e5 : ¬ scene_type = "closing" := fun he => h (by rw [he]; simp)
  rw [if_neg e1, if_neg e2, if_neg e3, if_neg e4, if_neg e5]

theorem sample_eval_scores_ge (content : List Char) (r0 r1 r2 r3 r4 : ℚ)
    (h0 : 0 ≤ r0) (h1 : 0 ≤ r1) (h2 : 0 ≤ r2) (h3 : 0 ≤ r3) :
    (3/4 : ℚ) ≤ (generate_sample_evaluation content r0 r1 r2 r3 r4).creativity_score ∧
    (3/4 : ℚ) ≤ (generate_sample_evaluation content r0 r1 r2 r3 r4).consistency_score ∧
    (3/4 : ℚ) ≤ (generate_sample_evaluation content r0 r1 r2 r3 r4).emotion_score ∧
    (3/4 : ℚ) ≤ (generate_sample_evaluation content r0 r1 r2 r3 r4).pacing_score ∧
    (3/4 : ℚ) ≤ (generate_sample_evaluation content r0 r1 r2 r3 r4).dialogue_score ∧
    (3/4 : ℚ) ≤ (generate_sample_evaluation content r0 r1 r2 r3 r4).overall_score := by
  have hge : ∀ add : ℚ, 0 ≤ add →
      (3/4 : ℚ) ≤ pyRound2 (qadd (qadd (mkRat 3 4) (qmul r0 (mkRat 3 20))) add) := by
    intro add hadd
    have h75 : ((75 : ℤ) : ℚ) / 100 ≤ qadd (qadd (mkRat 3 4) (qmul r0 (mkRat 3 20))) add := by
      rw [qadd_eq, qadd_eq, qmul_eq]
      have e1 : mkRat 3 4 = (3/4 : ℚ) := by rw [Rat.mkRat_eq_div]; norm_num
      have e2 : mkRat 3 20 = (3/20 : ℚ) := by rw [Rat.mkRat_eq_div]; norm_num
      rw [e1, e2]
      have hr : (0:ℚ) ≤ r0 * (3/20) := by nlinarith
      have : ((75 : ℤ) : ℚ) / 100 = 3/4 := by norm_num
      rw [this]
      nlinarith
    have hres := pyRound2_ge _ 75 h75
    have h75e : ((75 : ℤ) : ℚ) / 100 = 3/4 := by norm_num
    rw [h75e] at hres
    exact hres
  refine ⟨?_, ?_, ?_, ?_, ?_, ?_⟩ <;> simp only [generate_sample_evaluation]
  · exact hge _ (by
      rw [qmul_eq]
      have e : mkRat 1 10 = (1/10 : ℚ) := by rw [Rat.mkRat_eq_div]; norm_num
      rw [e]
      nlinarith)
  · exact hge _ (by
      have e : mkRat 1 20 = (1/20 : ℚ) := by rw [Rat.mkRat_eq_div]; norm_num
      rw [e]
      norm_num)
  · exact hge _ (by
      rw [qmul_eq]
      have e : mkRat 2 25 = (2/25 : ℚ) := by rw [Rat.mkRat_eq_div]; norm_num
      rw [e]
      nlinarith)
  · exact hge _ (by
      rw [qmul_eq]
      have e : mkRat 1 20 = (1/20 : ℚ) := by rw [Rat.mkRat_eq_div]; norm_num
      rw [e]
      nlinarith)
  · exact hge _ (by
      rw [qmin_eq]
      have e1 : mkRat 1 10 = (1/10 : ℚ) := by rw [Rat.mkRat_eq_div]; norm_num
      have e2 : mkRat 1 50 = (1/50 : ℚ) := by rw [Rat.mkRat_eq_div]; norm_num
      rw [qmul_eq, qofNat_eq, e1, e2]
      have hn : (0:ℚ) ≤ (content.count ':' : ℚ) * (1/50) := by positivity
      exact le_min (by norm_num) hn)
  · exact hge _ (by
      have e : mkRat 3 100 = (3/100 : ℚ) := by rw [Rat.mkRat_eq_div]; norm_num
      rw [e]
      norm_num)

/-- Claim C4 (amended): on the no-client path the generated content is
non-empty and always one of the five fixed per-scene-type templates
(unknown scene types falling back to the dialogue template); the route's
scene write sets `ai_generated` true and the recomputed word count; and
exactly one evaluation row is persisted for the scene — but it is the
randomized heuristic sample evaluation, whose five axis scores and
overall score are always at least 0.75, not the all-0.5 neutral default
the claim asserts.  The no-client request path is total, so it never
fails for lack of an AI provider. -/
theorem generation_fallback_spec (characters : List (List Char)) (goal : List Char)
    (scene_type : String) (lc : Option LearningContext) (s : SceneRow)
    (db : List EvalRow) (content : List Char) (r0 r1 r2 r3 r4 : ℚ)
    (hdb : (db.filter (fun x => decide (x.scene_id = s.id))).length ≤ 1)
    (h0 : 0 ≤ r0) (h1 : 0 ≤ r1) (h2 : 0 ≤ r2) (h3 : 0 ≤ r3) :
    generate_sample_script characters goal scene_type lc ≠ [] ∧
    (generate_sample_script characters goal scene_type lc ∈
      [ script_opening (((default_char_names characters).get? 0).getD [])
          (((default_char_names characters).get? 1).getD []) goal (style_note lc)
      , script_dialogue (((default_char_names characters).get? 0).getD [])
          (((default_char_names characters).get? 1).getD []) goal (style_note lc)
      , script_talk (((default_char_names characters).get? 0).getD [])
          (((default_char_names characters).get? 1).getD []) goal (style_note lc)
      , script_highlight (((default_char_names characters).get? 0).getD [])
          (((default_char_names characters).get? 1).getD []) goal (style_note lc)
      , script_closing (((default_char_names characters).get? 0).getD [])
          (((default_char_names characters).get? 1).getD []) goal (style_note lc) ]) ∧
    (scene_type ∉ (["opening", "dialogue", "talk", "highlight", "closing"] : List String) →
      generate_sample_script characters goal scene_type lc =
        script_dialogue (((default_char_names characters).get? 0).getD [])
          (((default_char_names characters).get? 1).getD []) goal (style_note lc)) ∧
    (generate_route_update s content goal).ai_generated = true ∧
    (generate_route_update s content goal).word_count = content.length ∧
    ((auto_evaluate_replace db s.id
        (generate_sample_evaluation content r0 r1 r2 r3 r4)).filter
      (fun x => decide (x.scene_id = s.id)) =
      [eval_row_of s.id (generate_sample_evaluation content r0 r1 r2 r3 r4)]) ∧
    ((3/4 : ℚ) ≤ (generate_sample_evaluation content r0 r1 r2 r3 r4).creativity_score ∧
     (3/4 : ℚ) ≤ (generate_sample_evaluation content r0 r1 r2 r3 r4).consistency_score ∧
     (3/4 : ℚ) ≤ (generate_sample_evaluation content r0 r1 r2 r3 r4).emotion_score ∧
     (3/4 : ℚ) ≤ (generate_sample_evaluation content r0 r1 r2 r3 r4).pacing_score ∧
     (3/4 : ℚ) ≤ (generate_sample_evaluation content r0 r1 r2 r3 r4).dialogue_score ∧
     (3/4 : ℚ) ≤ (generate_sample_evaluation content r0 r1 r2 r3 r4).overall_score) := by
  refine ⟨generate_sample_script_ne_nil characters goal scene_type lc,
    generate_sample_script_mem characters goal scene_type lc,
    generate_sample_script_default characters goal scene_type lc,
    by simp [generate_route_update], rfl, ?_,
    sample_eval_scores_ge content r0 r1 r2 r3 r4 h0 h1 h2 h3⟩
  rw [auto_evaluate_replace]
  exact replace_filter_singleton db s.id _ hdb rfl

/-- Claim C4 counterexample: on the no-client path with the default
dialogue template as content and all random draws 0, the persisted sample
evaluation has consistency score 0.8 and stored creativity 0.75 — not the
all-0.5 neutral default the claim asserts is persisted. -/
theorem sample_evaluation_not_neutral_cex :
    (generate_sample_evaluation c4_content (mkRat 0 1) (mkRat 0 1) (mkRat 0 1)
        (mkRat 0 1) (mkRat 0 1)).consistency_score = mkRat 4 5 ∧
    ((auto_evaluate_replace [] 1 (generate_sample_evaluation c4_content (mkRat 0 1)
        (mkRat 0 1) (mkRat 0 1) (mkRat 0 1) (mkRat 0 1))).map
      (fun r => r.creativity_score)) = [mkRat 3 4] ∧
    ¬ ((mkRat 4 5 : ℚ) = mkRat 1 2) := by
  refine ⟨by decide, by decide, by decide⟩

/-- Witness for the amended C4 theorem at a concrete request: no
characters, dialogue scene type, no learning context, random draws 0. -/
theorem generation_fallback_spec_witness :
    generate_sample_script [] (("오늘의 주제").toList) "dialogue" none ≠ [] ∧
    (3/4 : ℚ) ≤ (generate_sample_evaluation c4_content (mkRat 0 1) (mkRat 0 1)
      (mkRat 0 1) (mkRat 0 1) (mkRat 0 1)).consistency_score ∧
    (auto_evaluate_replace [] c7_scene.id (generate_sample_evaluation c4_content
        (mkRat 0 1) (mkRat 0 1) (mkRat 0 1) (mkRat 0 1) (mkRat 0 1))).filter
      (fun x => decide (x.scene_id = c7_scene.id)) =
      [eval_row_of c7_scene.id (generate_sample_evaluation c4_content (mkRat 0 1)
        (mkRat 0 1) (mkRat 0 1) (mkRat 0 1) (mkRat 0 1))] := by
  have h := generation_fallback_spec [] (("오늘의 주제").toList) "dialogue" none
    c7_scene [] c4_content (mkRat 0 1) (mkRat 0 1) (mkRat 0 1) (mkRat 0 1) (mkRat 0 1)
    (by decide) (by decide) (by decide) (by decide) (by decide)
  exact ⟨h.1, h.2.2.2.2.2.2.2.1, h.2.2.2.2.2.1⟩
